import Mathlib

/-!
Afrigene front end: session store, API client, route guard, role-gated UI.

A shallow embedding of `frontend/src/context/AuthContext.jsx`, `frontend/src/App.jsx`,
the handlers and effects of `frontend/src/pages/Lab.jsx` and
`frontend/src/pages/Dashboard.jsx`, and the components `AuditLog` and `HealthMarkerCard`
of `frontend/src/components/Common.jsx`.

Conventions of the embedding

* A JavaScript value that is `string | null` (or `string | undefined`) is an
  `Option String`; `none` stands for `null` / `undefined`.
* `localStorage` and an axios header record are association lists from keys to
  string values, with at most one entry per key.
* React hook state (`useState`) is a field of `Session`; the component body of
  `AuthProvider` that runs on every render is `render`.
* The authentication server is not part of the repository: it is a parameter
  (`Backend`) of `login`; so is the data service (`GetBackend`) of the fetching views.
* An asynchronous callback is split at its `await`: the part that runs on the call, and
  the part that runs when the request settles.
-/

namespace Afrigene

/-! ## JavaScript helpers -/

/-- JavaScript truthiness of a `string | null` value: `null` and `''` are falsy. -/
def truthy (v : Option String) : Bool :=
  match v with
  | none => false
  | some s => s != ""

/-- The expression `a || b` for a `string | undefined` left operand and a string right operand. -/
def orElse (a : Option String) (b : String) : String :=
  match a with
  | none => b
  | some s => if s != "" then s else b

/-- String conversion of a `string | null` value, as a template literal performs it. -/
def toStr (v : Option String) : String :=
  match v with
  | none => "null"
  | some s => s

/-! ## Key/value records: `localStorage` and header objects -/

/-- A string-keyed record of string values. -/
abbrev Dict := List (String × String)

/-- Property read: the value stored under `k`, if any. -/
def Dict.get (d : Dict) (k : String) : Option String :=
  match d with
  | [] => none
  | (key, v) :: rest => if key = k then some v else Dict.get rest k

/-- Property delete: drop the entry stored under `k`. -/
def Dict.remove (d : Dict) (k : String) : Dict :=
  match d with
  | [] => []
  | (key, v) :: rest => if key = k then Dict.remove rest k else (key, v) :: Dict.remove rest k

/-- Property write: store `v` under `k`, replacing a previous entry. -/
def Dict.set (d : Dict) (k v : String) : Dict :=
  (k, v) :: Dict.remove d k

/-- Browser `localStorage`. -/
abbrev Storage := Dict

/-- Storage read, `localStorage.getItem(k)`: a string, or `null` when the key is absent. -/
def getItem (st : Storage) (k : String) : Option String := Dict.get st k

/-- Storage write, `localStorage.setItem(k, v)`. -/
def setItem (st : Storage) (k v : String) : Storage := Dict.set st k v

/-- Storage delete, `localStorage.removeItem(k)`. -/
def removeItem (st : Storage) (k : String) : Storage := Dict.remove st k

/-! ## The axios client -/

/-- The base address, `API_BASE` (AuthContext.jsx line 4). -/
def API_BASE : String := "http://localhost:8000/api/v1"

/-- An axios instance, as far as this code configures it: `defaults.baseURL` and the
header entries of `defaults.headers` written by this code. -/
structure AxiosInstance where
  baseURL : String
  headers : Dict
  deriving DecidableEq

/-- The client built at lines 14-19 by `axios.create`, with `baseURL: API_BASE` and
`headers.Authorization` set to `Bearer ` followed by the token when the token is truthy
and to the empty string otherwise. The `Authorization` key is always written. -/
def axiosCreate (token : Option String) : AxiosInstance :=
  { baseURL := API_BASE
    headers := [("Authorization", if truthy token then "Bearer " ++ toStr token else "")] }

/-- The assignment `api.defaults.headers.Authorization = v` (lines 38 and 54). -/
def setAuthorization (api : AxiosInstance) (v : String) : AxiosInstance :=
  { api with headers := Dict.set api.headers "Authorization" v }

/-- The value of header `name` on a request issued through `api` with per-request
headers `config`: a per-request entry overrides the instance default, and a default
entry is sent as it is configured, the empty string included. `none` means the
request carries no such header. -/
def requestHeader (api : AxiosInstance) (config : Dict) (name : String) : Option String :=
  match Dict.get config name with
  | some v => some v
  | none => Dict.get api.headers name

/-! ## Data exchanged with the authentication endpoint -/

/-- The user profile of a login response. -/
structure User where
  email : String
  role : String
  deriving DecidableEq

/-- The body posted to `/auth/login` (lines 25-29). -/
structure LoginBody where
  email : Option String
  password : Option String
  mfa_code : Option String
  deriving DecidableEq

/-- A success body of `POST /auth/login`: `response.data` at line 31. -/
structure LoginResponse where
  access_token : String
  refresh_token : String
  user : User
  deriving DecidableEq

/-- The `data` of an error response: `detail` may be missing. -/
structure ErrorData where
  detail : Option String
  deriving DecidableEq

/-- The `response` of a failed request: status and an optional body. -/
structure ErrorResponse where
  status : Nat
  data : Option ErrorData
  deriving DecidableEq

/-- The error object a failed axios request rejects with: its own `message`, and the
server's `response` when one was received. -/
structure AxiosError where
  message : String
  response : Option ErrorResponse
  deriving DecidableEq

/-- The expression `err.response?.data?.detail`. -/
def AxiosError.detail (err : AxiosError) : Option String :=
  match err.response with
  | none => none
  | some r =>
    match r.data with
    | none => none
    | some d => d.detail

/-- The external authentication service as seen through `api.post(url, body)`: given the
client used, the url and the body it answers with a success body or rejects. -/
abbrev Backend := AxiosInstance → String → LoginBody → Except AxiosError LoginResponse

/-! ## The session store (`AuthProvider`) -/

/-- The state of `AuthProvider`: its four hooks (lines 9-12), the `localStorage` it reads
and writes, and the axios instance `api` that its current callbacks close over. -/
structure Session where
  user : Option User
  token : Option String
  loading : Bool
  error : Option String
  localStorage : Storage
  api : AxiosInstance
  deriving DecidableEq

/-- The component body on a render (lines 14-19): hook state is kept, `api` is created
anew from the current `token`. -/
def render (s : Session) : Session :=
  { s with api := axiosCreate s.token }

/-- The first render (lines 9-19): `user` starts `null`, `token` is read from storage. -/
def init (storage : Storage) : Session :=
  render
    { user := none
      token := getItem storage "access_token"
      loading := false
      error := none
      localStorage := storage
      api := axiosCreate none }

/-- The derived flag `isAuthenticated: !!token` (line 66). -/
def isAuthenticated (s : Session) : Bool := truthy s.token

/-- The callback `login` (lines 21-47): the session after the call has settled, and what
the returned promise settles with: the user profile, or the rethrown error. -/
def login (backend : Backend) (s : Session) (email password mfa_code : Option String) :
    Session × Except AxiosError User :=
  -- setLoading(true); setError(null)
  let s1 := { s with loading := true, error := none }
  match backend s1.api "/auth/login" { email := email, password := password, mfa_code := mfa_code } with
  | .ok data =>
    let st1 := setItem s1.localStorage "access_token" data.access_token
    let st2 := setItem st1 "refresh_token" data.refresh_token
    let s2 := { s1 with
      localStorage := st2
      token := some data.access_token
      user := some data.user
      api := setAuthorization s1.api ("Bearer " ++ data.access_token) }
    -- finally: setLoading(false)
    ({ s2 with loading := false }, .ok data.user)
  | .error err =>
    let s2 := { s1 with error := some (orElse err.detail "Login failed") }
    -- throw err; finally: setLoading(false)
    ({ s2 with loading := false }, .error err)

/-- The callback `logout` (lines 49-55). -/
def logout (s : Session) : Session :=
  let st1 := removeItem s.localStorage "access_token"
  let st2 := removeItem st1 "refresh_token"
  { s with
    localStorage := st2
    token := none
    user := none
    api := setAuthorization s.api "" }

/-- An operation on the session store. -/
inductive Event where
  | login (backend : Backend) (email password mfa_code : Option String)
  | logout

/-- One operation followed by the re-render that its state updates trigger. -/
def step (s : Session) (e : Event) : Session :=
  match e with
  | .login backend email password mfa_code => render (login backend s email password mfa_code).1
  | .logout => render (logout s)

/-- A sequence of operations, applied in order. -/
def run (s : Session) (es : List Event) : Session :=
  es.foldl step s

/-! ## Routing (`App.jsx`) -/

/-- The page components that routes mount. -/
inductive Page where
  | HomePage
  | ScienceMethodology
  | ResearchEthics
  | PlaceholderPage (title : String)
  | LoginPage
  | DashboardPage
  | SampleDetailPage (sampleId : String)
  deriving DecidableEq

/-- A navigation link: target and label. -/
structure Link where
  target : String
  label : String
  deriving DecidableEq

/-- A rendered element tree, as far as routing decides it. -/
inductive Element where
  /-- A page component. -/
  | page (p : Page)
  /-- A redirect, `Navigate`. -/
  | navigate (target : String)
  /-- The public layout around its `Outlet`, the element of the matched child route. -/
  | publicLayout (outlet : Element)
  /-- The lab layout: the e-mail and role badges, the side bar links (`none` when the
  side bar is collapsed), and its `Outlet` in `main`. -/
  | protectedLayout (email role : Option String) (sidebar : Option (List Link)) (outlet : Element)
  /-- Nothing: no route matched. -/
  | null
  deriving DecidableEq

/-- One segment of a route path: a literal, or a `:name` parameter. -/
inductive Segment where
  | static (s : String)
  | dynamic (name : String)
  deriving DecidableEq

/-- A route path: segments, or the catch-all `*`. -/
inductive Pattern where
  | segments (segs : List Segment)
  | splat
  deriving DecidableEq

/-- The layout route a route is nested in. -/
inductive Parent where
  | root
  | PublicLayout
  | ProtectedRoute
  deriving DecidableEq

/-- A leaf route of the table: its path, its parent layout route, and its element as
a function of the matched parameters. -/
structure RouteObject where
  path : Pattern
  parent : Parent
  element : Dict → Element

/-- ASCII lower-casing, for the case-insensitive comparison of literal segments. -/
def lower (s : String) : String := String.mk (s.data.map Char.toLower)

/-- Match the segments of a route path against the segments of a location path (the
pathname split at `/`, without the leading and trailing slashes). A literal matches
case-insensitively; a parameter matches any non-empty segment and binds it. -/
def matchSegments (pattern : List Segment) (path : List String) : Option Dict :=
  match pattern, path with
  | [], [] => some []
  | .static s :: ps, x :: xs => if lower x = lower s then matchSegments ps xs else none
  | .dynamic n :: ps, x :: xs =>
    if x ≠ "" then (matchSegments ps xs).map (fun params => (n, x) :: params) else none
  | _, _ => none

/-- Match one route path against a location path. -/
def matchPath (pattern : Pattern) (path : List String) : Option Dict :=
  match pattern with
  | .segments segs => matchSegments segs path
  | .splat => some []

/-- The parameter read `useParams().sampleId`. -/
def paramOf (params : Dict) (name : String) : String := toStr (Dict.get params name)

/-- The route table of `App` (lines 124-149), in source order. -/
def routes : List RouteObject :=
  [ ⟨.segments [], .PublicLayout, fun _ => .page .HomePage⟩
  , ⟨.segments [.static "science"], .PublicLayout, fun _ => .page .ScienceMethodology⟩
  , ⟨.segments [.static "research-ethics"], .PublicLayout, fun _ => .page .ResearchEthics⟩
  , ⟨.segments [.static "lab-partnerships"], .PublicLayout,
      fun _ => .page (.PlaceholderPage "Lab Partnerships")⟩
  , ⟨.segments [.static "pricing"], .PublicLayout, fun _ => .page (.PlaceholderPage "Pricing")⟩
  , ⟨.segments [.static "populations"], .PublicLayout,
      fun _ => .page (.PlaceholderPage "African Populations")⟩
  , ⟨.segments [.static "lab", .static "login"], .root, fun _ => .page .LoginPage⟩
  , ⟨.segments [.static "lab", .static "dashboard"], .ProtectedRoute, fun _ => .page .DashboardPage⟩
  , ⟨.segments [.static "lab", .static "samples", .dynamic "sampleId"], .ProtectedRoute,
      fun params => .page (.SampleDetailPage (paramOf params "sampleId"))⟩
  , ⟨.segments [.static "lab", .static "samples"], .ProtectedRoute,
      fun _ => .page (.PlaceholderPage "Samples")⟩
  , ⟨.segments [.static "lab", .static "consent"], .ProtectedRoute,
      fun _ => .page (.PlaceholderPage "Consent Management")⟩
  , ⟨.segments [.static "lab", .static "settings"], .ProtectedRoute,
      fun _ => .page (.PlaceholderPage "Settings")⟩
  , ⟨.segments [.static "lab", .static "audit"], .ProtectedRoute,
      fun _ => .page (.PlaceholderPage "Audit Logs")⟩
  , ⟨.splat, .root, fun _ => .navigate "/"⟩ ]

/-- The first route of a table that matches the location, with its parameters. In the
table of `App` no two routes other than `*` match a common location, and `*` is last,
so the first match is also the best-ranked one. -/
def matchRoutes (table : List RouteObject) (path : List String) : Option (RouteObject × Dict) :=
  match table with
  | [] => none
  | r :: rest =>
    match matchPath r.path path with
    | some params => some (r, params)
    | none => matchRoutes rest path

/-- The side bar links of `ProtectedLayout` (lines 63-94): four fixed links, then the
`Audit Logs` link when `user?.role === 'Lab Admin'`. -/
def sidebarLinks (user : Option User) : List Link :=
  [ ⟨"/lab/dashboard", "Dashboard"⟩
  , ⟨"/lab/samples", "Samples"⟩
  , ⟨"/lab/consent", "Consent"⟩
  , ⟨"/lab/settings", "Settings"⟩ ] ++
  (if user.map (fun u => u.role) = some "Lab Admin" then [⟨"/lab/audit", "Audit Logs"⟩] else [])

/-- The component `ProtectedLayout` (lines 29-105) for the current `user`, the local
state `sidebarOpen`, and the matched child page. -/
def ProtectedLayout (user : Option User) (sidebarOpen : Bool) (outlet : Element) : Element :=
  .protectedLayout (user.map (fun u => u.email)) (user.map (fun u => u.role))
    (if sidebarOpen then some (sidebarLinks user) else none) outlet

/-- The component `PublicLayout` (lines 11-27) around the matched child page. -/
def PublicLayout (outlet : Element) : Element := .publicLayout outlet

/-- The component `ProtectedRoute` (lines 107-110): the layout when authenticated, else a
redirect to the login route. -/
def ProtectedRoute (s : Session) (sidebarOpen : Bool) (outlet : Element) : Element :=
  if isAuthenticated s then ProtectedLayout s.user sidebarOpen outlet else .navigate "/lab/login"

/-- What `App` renders (lines 120-153) at a location, for a session and the local state
of the lab layout: the element of the matched route inside its parent layout route. -/
def App (s : Session) (sidebarOpen : Bool) (path : List String) : Element :=
  match matchRoutes routes path with
  | none => .null
  | some (r, params) =>
    match r.parent with
    | .root => r.element params
    | .PublicLayout => PublicLayout (r.element params)
    | .ProtectedRoute => ProtectedRoute s sidebarOpen (r.element params)

/-- The pages whose content an element tree shows. -/
def Element.content (e : Element) : List Page :=
  match e with
  | .page p => [p]
  | .navigate _ => []
  | .publicLayout outlet => outlet.content
  | .protectedLayout _ _ _ outlet => outlet.content
  | .null => []

/-- Whether an element shows the `Audit Logs` navigation link. -/
def Element.showsAuditLink (e : Element) : Bool :=
  match e with
  | .protectedLayout _ _ (some links) _ => decide (⟨"/lab/audit", "Audit Logs"⟩ ∈ links)
  | _ => false

/-- Split the characters of a pathname at `/`; `cur` holds the current segment, reversed. -/
def splitSlash (cs : List Char) (cur : List Char) : List String :=
  match cs with
  | [] => [String.mk cur.reverse]
  | c :: rest =>
    if c = '/' then String.mk cur.reverse :: splitSlash rest [] else splitSlash rest (c :: cur)

/-- Drop the empty segments at the end of a list: trailing slashes are not significant. -/
def dropTrailingEmpty (segs : List String) : List String :=
  match segs with
  | [] => []
  | x :: rest =>
    match dropTrailingEmpty rest with
    | [] => if x = "" then [] else [x]
    | kept => x :: kept

/-- The segments of a pathname such as `/lab/login`: what stands between the slashes,
after the leading one. -/
def segmentsOf (pathname : String) : List String :=
  dropTrailingEmpty (splitSlash pathname.data []).tail

/-- Whether a location matches one of the declared routes other than the catch-all `*`. -/
def matchesDeclared (path : List String) : Bool :=
  routes.any (fun r => r.path != .splat && (matchPath r.path path).isSome)

/-! ## A login in flight

`login` awaits the server between line 25 and line 31. `loginIssue` is the part that runs
when `login` is called, `loginSettle` the part that runs when the answer arrives, on the
state the store has by then. -/

/-- A login whose request has been sent: the client the callback closed over, and the
body it posted. -/
structure PendingLogin where
  api : AxiosInstance
  body : LoginBody
  deriving DecidableEq

/-- Lines 22-29: `setLoading(true); setError(null)`, and the request is sent. -/
def loginIssue (s : Session) (email password mfa_code : Option String) :
    Session × PendingLogin :=
  ({ s with loading := true, error := none },
   { api := s.api, body := { email := email, password := password, mfa_code := mfa_code } })

/-- Lines 31-46, run when the request settles with `outcome`: the session after it, the
client of the callback after line 38, and what the promise of `login` settles with. -/
def loginSettle (s : Session) (p : PendingLogin) (outcome : Except AxiosError LoginResponse) :
    Session × AxiosInstance × Except AxiosError User :=
  match outcome with
  | .ok data =>
    let st1 := setItem s.localStorage "access_token" data.access_token
    let st2 := setItem st1 "refresh_token" data.refresh_token
    ({ s with
        localStorage := st2
        token := some data.access_token
        user := some data.user
        loading := false },
     setAuthorization p.api ("Bearer " ++ data.access_token),
     .ok data.user)
  | .error err =>
    ({ s with error := some (orElse err.detail "Login failed"), loading := false },
     p.api,
     .error err)

/-- A login issued in state `s`, then a logout, then the settling of the login with
`outcome`, each followed by the re-render it triggers: the session at the end. -/
def lateLogin (s : Session) (email password mfa_code : Option String)
    (outcome : Except AxiosError LoginResponse) : Session :=
  let issued := loginIssue s email password mfa_code
  let afterLogout := step (render issued.1) .logout
  render (loginSettle afterLogout issued.2 outcome).1

/-! ## The login page (`pages/Lab.jsx`) -/

/-- The hooks of `LoginPage` (lines 6-10). -/
structure LoginPageState where
  email : String
  password : String
  mfaCode : String
  loading : Bool
  error : Option String
  deriving DecidableEq

/-- The initial hook values of `LoginPage`. -/
def LoginPage.initial : LoginPageState :=
  { email := "jane.kimani@knh.org"
    password := "demo_password_123"
    mfaCode := ""
    loading := false
    error := none }

/-- What a form submission leaves behind: the session store, the hooks of the page, and
the target of `navigate(...)` when it was called. -/
structure SubmitResult where
  session : Session
  view : LoginPageState
  navigated : Option String
  deriving DecidableEq

/-- The handler `handleSubmit` (lines 15-28). -/
def LoginPage.handleSubmit (backend : Backend) (s : Session) (st : LoginPageState) :
    SubmitResult :=
  -- setLoading(true); setError(null)
  let st1 := { st with loading := true, error := none }
  match login backend s (some st1.email) (some st1.password) (some st1.mfaCode) with
  | (s1, .ok _) =>
    -- navigate('/lab/dashboard'); finally: setLoading(false)
    { session := s1, view := { st1 with loading := false }, navigated := some "/lab/dashboard" }
  | (s1, .error err) =>
    -- setError(err.response?.data?.detail || 'Login failed'); finally: setLoading(false)
    { session := s1
      view := { st1 with error := some (orElse err.detail "Login failed"), loading := false }
      navigated := none }

/-- The inline error box of the login page (lines 43-47): the message, when `error` is
truthy. -/
def LoginPage.errorBox (st : LoginPageState) : Option String :=
  if truthy st.error then st.error else none

/-! ## Data-fetching views (`pages/Dashboard.jsx`) -/

/-- A `GET` request as the server sees it: address, query parameters and the
`Authorization` header it carries. -/
structure Request where
  method : String
  baseURL : String
  url : String
  params : Dict
  authorization : Option String
  deriving DecidableEq

/-- The call `api.get(url, config)` with the query parameters and per-request headers of
`config`: the request it sends. -/
def AxiosInstance.get (api : AxiosInstance) (url : String) (params headers : Dict) : Request :=
  { method := "GET"
    baseURL := api.baseURL
    url := url
    params := params
    authorization := requestHeader api headers "Authorization" }

/-- The external data service as seen through `api.get`: it answers a request with a
body of type `α` or rejects. -/
abbrev GetBackend (α : Type) := Request → Except AxiosError α

/-- One sample of the list `response.data.samples`. -/
structure Sample where
  id : String
  sample_id : String
  status : String
  uploaded_at : String
  deriving DecidableEq

/-- The hooks of `DashboardPage` (lines 9-11). The component has no error hook. -/
structure DashboardState where
  samples : List Sample
  loading : Bool
  selectedStatus : Option String
  deriving DecidableEq

/-- The initial hook values of `DashboardPage`. -/
def DashboardPage.initial : DashboardState :=
  { samples := [], loading := true, selectedStatus := none }

/-- The effect `fetchSamples` (lines 14-24) run with the client `api`: the hooks after it,
and what its promise settles with. A rejection is caught and written to the console. -/
def DashboardPage.fetchSamples (server : GetBackend (List Sample)) (api : AxiosInstance)
    (st : DashboardState) : DashboardState × Except AxiosError Unit :=
  let params : Dict := if truthy st.selectedStatus then [("status", toStr st.selectedStatus)] else []
  match server (api.get "/samples" params []) with
  | .ok samples => ({ st with samples := samples, loading := false }, .ok ())
  | .error _ => ({ st with loading := false }, .ok ())

/-- What the samples card of the dashboard shows (lines 90-133). -/
inductive SamplesCard where
  /-- The text `Loading samples...`. -/
  | loadingMessage
  /-- The text `No samples found`. -/
  | noSamplesFound
  /-- The table of samples. -/
  | table (rows : List Sample)
  deriving DecidableEq

/-- The samples card for the current hooks (lines 90-133). -/
def DashboardPage.samplesCard (st : DashboardState) : SamplesCard :=
  if st.loading then .loadingMessage
  else if st.samples.length = 0 then .noSamplesFound
  else .table st.samples

/-- The results document of a sample, kept as the opaque text of its body. -/
abbrev ResultsDocument := String

/-- One entry of an audit log, as `AuditLog` displays it (Common.jsx lines 127-141). -/
structure AuditEntry where
  id : String
  timestamp : String
  user_email : String
  action : String
  resource_accessed : Option String
  ip_address : Option String
  deriving DecidableEq

/-- The hooks of `SampleDetailPage` (lines 154-157). -/
structure SampleDetailState where
  results : Option ResultsDocument
  loading : Bool
  error : Option String
  auditLogs : List AuditEntry
  deriving DecidableEq

/-- The initial hook values of `SampleDetailPage`. -/
def SampleDetailPage.initial : SampleDetailState :=
  { results := none, loading := true, error := none, auditLogs := [] }

/-- The request of `fetchResults` (lines 162-164): the per-request `Authorization` header
is `Bearer ` followed by the stored access token, read from `localStorage`. -/
def SampleDetailPage.request (s : Session) (sampleId : String) : Request :=
  s.api.get ("/samples/" ++ sampleId ++ "/results") []
    [("Authorization", "Bearer " ++ toStr (getItem s.localStorage "access_token"))]

/-- The effect `fetchResults` (lines 160-172) in session `s`: the session store after it,
the hooks of the page after it, and what its promise settles with. -/
def SampleDetailPage.fetchResults (server : GetBackend ResultsDocument) (s : Session)
    (sampleId : String) (st : SampleDetailState) :
    Session × SampleDetailState × Except AxiosError Unit :=
  match server (SampleDetailPage.request s sampleId) with
  | .ok data => (s, { st with results := some data, loading := false }, .ok ())
  | .error _ => (s, { st with error := some "Failed to load results", loading := false }, .ok ())

/-- The inline error box of the sample page (lines 184-188): the message, when `error` is
truthy. -/
def SampleDetailPage.errorBox (st : SampleDetailState) : Option String :=
  if truthy st.error then st.error else none

/-! ## Operations of the session store, classified -/

/-- Whether an operation is a logout. -/
def Event.isLogout (e : Event) : Bool :=
  match e with
  | .logout => true
  | .login _ _ _ _ => false

/-- Whether an operation, run in state `s`, is a login that the server accepts. -/
def succeeds (s : Session) (e : Event) : Bool :=
  match e with
  | .logout => false
  | .login backend email password mfa_code =>
    match (login backend s email password mfa_code).2 with
    | .ok _ => true
    | .error _ => false

/-! ## Following redirects -/

/-- The target of the `Navigate` an element tree holds, if any. -/
def Element.redirect (e : Element) : Option String :=
  match e with
  | .page _ => none
  | .navigate target => some target
  | .publicLayout outlet => outlet.redirect
  | .protectedLayout _ _ _ outlet => outlet.redirect
  | .null => none

/-- Navigation to a location: render it, and while the rendered tree holds a `Navigate`,
go to its target and render again, at most `fuel` renders in all. The result is the tree
that stays on screen and the number of redirects taken, or `none` when the renders ran
out before a tree without `Navigate` was reached. -/
def resolveLocation (fuel : Nat) (s : Session) (sidebarOpen : Bool) (path : List String) :
    Option (Element × Nat) :=
  match fuel with
  | 0 => none
  | fuel + 1 =>
    match (App s sidebarOpen path).redirect with
    | none => some (App s sidebarOpen path, 0)
    | some target =>
      (resolveLocation fuel s sidebarOpen (segmentsOf target)).map (fun r => (r.1, r.2 + 1))

/-! ## The login form -/

/-- Submitting the form of the login page (Lab.jsx lines 49-92). The e-mail and password
inputs are `required` and the e-mail input has `type="email"`, so the browser fires the
submit event, and with it `handleSubmit`, only when both fields are filled and the e-mail
passes the browser's format check `validEmail`; otherwise nothing runs. -/
def LoginPage.submitForm (validEmail : String → Bool) (backend : Backend) (s : Session)
    (st : LoginPageState) : SubmitResult :=
  if st.email != "" && validEmail st.email && st.password != "" then
    LoginPage.handleSubmit backend s st
  else
    { session := s, view := st, navigated := none }

/-! ## The audit trail of the sample page -/

/-- What the component `AuditLog` shows (Common.jsx lines 105-146). -/
inductive AuditLogView where
  /-- The text `Loading audit logs...`. -/
  | loadingMessage
  /-- The text `No access logs`. -/
  | noAccessLogs
  /-- The table of entries. -/
  | table (rows : List AuditEntry)
  deriving DecidableEq

/-- The component `AuditLog` (Common.jsx lines 105-146) for its props `entries`, which may be
missing, and `loading`. -/
def AuditLog (entries : Option (List AuditEntry)) (loading : Bool) : AuditLogView :=
  if loading then .loadingMessage
  else
    match entries with
    | none => .noAccessLogs
    | some rows => if rows.length = 0 then .noAccessLogs else .table rows

/-- The audit trail card of `SampleDetailPage` (Dashboard.jsx line 198): `AuditLog` with
`entries` set to the hook `auditLogs` and `loading` left at its default `false`. -/
def SampleDetailPage.auditTrail (st : SampleDetailState) : AuditLogView :=
  AuditLog (some st.auditLogs) false

/-- One run of the effect of `SampleDetailPage`: the data service that answers it, the
session it runs in, and the sample id of the route. -/
structure FetchRun where
  server : GetBackend ResultsDocument
  session : Session
  sampleId : String

/-- The hooks of `SampleDetailPage` after the effect `fetchResults` has run for each entry
of `fetches`, starting from the initial hooks. Nothing else writes these hooks. -/
def SampleDetailPage.after (fetches : List FetchRun) : SampleDetailState :=
  fetches.foldl
    (fun st f => (SampleDetailPage.fetchResults f.server f.session f.sampleId st).2.1)
    SampleDetailPage.initial

/-! ## Severity colour of a health marker (`components/Common.jsx`) -/

/-- Whether the list `l` starts with the list `n`. -/
def startsWith (l n : List Char) : Bool :=
  match l, n with
  | _, [] => true
  | [], _ :: _ => false
  | c :: cs, d :: ds => decide (c = d) && startsWith cs ds

/-- Whether the list `n` occurs in the list `l` as a contiguous block. -/
def hasInfix (l n : List Char) : Bool :=
  match l with
  | [] => startsWith [] n
  | c :: cs => startsWith (c :: cs) n || hasInfix cs n

/-- The method `text.includes(needle)`. -/
def includes (text needle : String) : Bool := hasInfix text.data needle.data

/-- The function `getSeverityColor` (Common.jsx lines 33-39). The lower-casing is the
ASCII one of `lower`; for the three words searched it finds the same occurrences as
`toLowerCase`, since no other character lower-cases to one of their letters followed by
the next letter of the word. -/
def getSeverityColor (significance : Option String) : String :=
  if !truthy significance then "bg-gray-50"
  else if includes (lower (toStr significance)) "disease" then "bg-red-50 border-red-200"
  else if includes (lower (toStr significance)) "carrier"
      || includes (lower (toStr significance)) "trait" then "bg-amber-50 border-amber-200"
  else "bg-blue-50 border-blue-200"

/-- The text `needle` occurs in the text `text`: some characters, then `needle`, then some
characters. This is the meaning of "contains", against which `includes` is checked. -/
def occursIn (needle text : String) : Prop :=
  ∃ before after : List Char, text.data = before ++ needle.data ++ after

/-- The lower-case text `needle` occurs in the text `text` when the case of letters is
ignored: some block of `text`, its letters lower-cased one by one, is `needle`. This is
the meaning of "contains, case-insensitively", stated without `lower` and `includes`. -/
def occursIgnoringCase (needle text : String) : Prop :=
  ∃ before block after : List Char,
    text.data = before ++ block ++ after ∧ block.map Char.toLower = needle.data

/-! ## Status counts of the dashboard -/

/-- The object `statusCounts` (Dashboard.jsx lines 29-33). -/
structure StatusCounts where
  received : Nat
  processing : Nat
  resultsAvailable : Nat
  deriving DecidableEq

/-- The status counts computed on a render of `DashboardPage` (lines 29-33): for each of the
three labels, the length of the list filtered by `s.status === label`. -/
def DashboardPage.statusCounts (samples : List Sample) : StatusCounts :=
  { received := (samples.filter (fun s => s.status == "Received")).length
    processing := (samples.filter (fun s => s.status == "Processing")).length
    resultsAvailable := (samples.filter (fun s => s.status == "Results Available")).length }

/-- The `Total Samples` card (line 45): `samples.length`. -/
def DashboardPage.totalSamples (samples : List Sample) : Nat := samples.length

/-! ## Concrete data used in examples -/

/-- The profile of the specification's example login. -/
def researcher : User := { email := "a@b.org", role := "Researcher" }

/-- A lab administrator, the first demo account of the login page. -/
def labAdmin : User := { email := "jane.kimani@knh.org", role := "Lab Admin" }

/-- A server that accepts every login with token `T1` for the researcher. -/
def acceptT1 : Backend := fun _ _ _ =>
  .ok { access_token := "T1", refresh_token := "R1", user := researcher }

/-- A server that accepts every login but hands out an empty access token. -/
def acceptEmpty : Backend := fun _ _ _ =>
  .ok { access_token := "", refresh_token := "R1", user := researcher }

/-- The error of a `401` answer with body `detail: "invalid credentials"`. -/
def err401 : AxiosError :=
  { message := "Request failed with status code 401"
    response := some { status := 401, data := some { detail := some "invalid credentials" } } }

/-- A server that rejects every login with `err401`. -/
def reject401 : Backend := fun _ _ _ => .error err401

/-- The error of a request that got no answer: there is no `response`. -/
def networkError : AxiosError := { message := "Network Error", response := none }

/-- A server that cannot be reached: every login fails with `networkError`. -/
def offline : Backend := fun _ _ _ => .error networkError

/-- The error of a `500` answer whose body has no `detail`. -/
def err500 : AxiosError :=
  { message := "Request failed with status code 500"
    response := some { status := 500, data := some { detail := none } } }

/-- A server that rejects every login with `err500`. -/
def reject500 : Backend := fun _ _ _ => .error err500

/-- A session restored from a storage that holds tokens of an earlier login. -/
def restored : Session := init [("access_token", "T0"), ("refresh_token", "R0")]

/-- A data service that rejects every request with a `500` answer without body. -/
def unavailable (α : Type) : GetBackend α := fun _ =>
  .error { message := "Request failed with status code 500"
           response := some { status := 500, data := none } }

/-- A data service that answers every request with the body `body`. -/
def answering (α : Type) (body : α) : GetBackend α := fun _ => .ok body

/-- The restored session with the profile of the lab administrator loaded. -/
def restoredAdmin : Session := { restored with user := some labAdmin }

/-! ## Lemmas on records -/

theorem Dict.get_remove_same (d : Dict) (k : String) : Dict.get (Dict.remove d k) k = none := by
  induction d with
  | nil => rfl
  | cons kv rest ih =>
    obtain ⟨key, v⟩ := kv
    by_cases h : key = k
    · simp [Dict.remove, h, ih]
    · simp [Dict.remove, Dict.get, h, ih]

theorem Dict.get_remove_other (d : Dict) (k j : String) (h : j ≠ k) :
    Dict.get (Dict.remove d j) k = Dict.get d k := by
  induction d with
  | nil => rfl
  | cons kv rest ih =>
    obtain ⟨key, v⟩ := kv
    by_cases hj : key = j
    · have hk : key ≠ k := by rw [hj]; exact h
      simp [Dict.remove, Dict.get, hj, ih, h]
    · by_cases hk : key = k
      · subst hk
        simp [Dict.remove, Dict.get, hj]
      · simp [Dict.remove, Dict.get, hj, hk, ih]

theorem Dict.get_set_same (d : Dict) (k v : String) : Dict.get (Dict.set d k v) k = some v := by
  simp [Dict.set, Dict.get]

theorem Dict.get_set_other (d : Dict) (k j v : String) (h : j ≠ k) :
    Dict.get (Dict.set d j v) k = Dict.get d k := by
  simp [Dict.set, Dict.get, h, Dict.get_remove_other d k j h]

theorem truthy_iff (v : Option String) : truthy v = true ↔ ∃ t, v = some t ∧ t ≠ "" := by
  cases v with
  | none => simp [truthy]
  | some t => simp [truthy]

/-- On a path that matches a route nested in `ProtectedRoute`, `App` renders
`ProtectedRoute` around the page of that route. -/
theorem App_protected (s : Session) (sidebarOpen : Bool) (path : List String) (view : Page)
    (hroute : (path, view) ∈
        [ (["lab", "dashboard"], Page.DashboardPage)
        , (["lab", "samples"], Page.PlaceholderPage "Samples")
        , (["lab", "consent"], Page.PlaceholderPage "Consent Management")
        , (["lab", "settings"], Page.PlaceholderPage "Settings")
        , (["lab", "audit"], Page.PlaceholderPage "Audit Logs") ]
      ∨ ∃ sampleId, sampleId ≠ "" ∧ path = ["lab", "samples", sampleId]
          ∧ view = Page.SampleDetailPage sampleId) :
    App s sidebarOpen path = ProtectedRoute s sidebarOpen (.page view) := by
  rcases hroute with h | ⟨sampleId, hne, hp, hv⟩
  · simp only [List.mem_cons, Prod.mk.injEq, List.mem_singleton, List.not_mem_nil, or_false] at h
    rcases h with ⟨hp, hv⟩ | ⟨hp, hv⟩ | ⟨hp, hv⟩ | ⟨hp, hv⟩ | ⟨hp, hv⟩ <;> subst hp <;> subst hv <;> rfl
  · subst hp; subst hv
    simp +decide [App, matchRoutes, routes, matchPath, matchSegments, hne, paramOf, Dict.get, toStr]

/-! ## Route guard -/

/-- C1: on each of the six protected routes and in every session state, `App` renders the
lab layout around the route's page exactly when `isAuthenticated` is true, and renders a
redirect to `/lab/login`, showing no page content, exactly when it is false. -/
theorem protected_route_guard (s : Session) (sidebarOpen : Bool) (path : List String)
    (view : Page)
    (hroute : (path, view) ∈
        [ (["lab", "dashboard"], Page.DashboardPage)
        , (["lab", "samples"], Page.PlaceholderPage "Samples")
        , (["lab", "consent"], Page.PlaceholderPage "Consent Management")
        , (["lab", "settings"], Page.PlaceholderPage "Settings")
        , (["lab", "audit"], Page.PlaceholderPage "Audit Logs") ]
      ∨ ∃ sampleId, sampleId ≠ "" ∧ path = ["lab", "samples", sampleId]
          ∧ view = Page.SampleDetailPage sampleId) :
    (App s sidebarOpen path = ProtectedLayout s.user sidebarOpen (.page view)
        ↔ isAuthenticated s = true) ∧
    (App s sidebarOpen path = .navigate "/lab/login" ↔ isAuthenticated s = false) ∧
    (isAuthenticated s = true → (App s sidebarOpen path).content = [view]) ∧
    (isAuthenticated s = false → (App s sidebarOpen path).content = []) := by
  rw [App_protected s sidebarOpen path view hroute]
  cases hauth : isAuthenticated s <;>
    simp [ProtectedRoute, hauth, ProtectedLayout, Element.content]

/-- C1, an instance: the sample-detail route for sample `S-1`, in the session of a fresh
start, which is not authenticated. -/
theorem protected_route_guard_witness :
    (App (init []) true ["lab", "samples", "S-1"]
        = ProtectedLayout (init []).user true (.page (.SampleDetailPage "S-1"))
        ↔ isAuthenticated (init []) = true) ∧
    (App (init []) true ["lab", "samples", "S-1"] = .navigate "/lab/login"
        ↔ isAuthenticated (init []) = false) ∧
    (isAuthenticated (init []) = true →
        (App (init []) true ["lab", "samples", "S-1"]).content = [.SampleDetailPage "S-1"]) ∧
    (isAuthenticated (init []) = false →
        (App (init []) true ["lab", "samples", "S-1"]).content = []) :=
  protected_route_guard (init []) true ["lab", "samples", "S-1"] (.SampleDetailPage "S-1")
    (Or.inr ⟨"S-1", by decide, rfl, rfl⟩)

/-! ## Session store -/

/-- C2: when the server answers a login with `data`, `login` sets `token` to
`data.access_token` and `user` to `data.user`, stores both tokens under the keys
`access_token` and `refresh_token`, and resolves with `data.user`; the re-render that
follows keeps all of this. -/
theorem login_success (backend : Backend) (s : Session) (email password mfa_code : Option String)
    (data : LoginResponse)
    (hok : backend s.api "/auth/login"
      { email := email, password := password, mfa_code := mfa_code } = .ok data) :
    (login backend s email password mfa_code).1.token = some data.access_token ∧
    (login backend s email password mfa_code).1.user = some data.user ∧
    getItem (login backend s email password mfa_code).1.localStorage "access_token"
      = some data.access_token ∧
    getItem (login backend s email password mfa_code).1.localStorage "refresh_token"
      = some data.refresh_token ∧
    (login backend s email password mfa_code).2 = .ok data.user ∧
    (step s (.login backend email password mfa_code)).token = some data.access_token ∧
    (step s (.login backend email password mfa_code)).user = some data.user ∧
    (step s (.login backend email password mfa_code)).localStorage
      = (login backend s email password mfa_code).1.localStorage := by
  have hne : ("refresh_token" : String) ≠ "access_token" := by decide
  simp [step, render, login, hok, getItem, setItem, Dict.get_set_same,
    Dict.get_set_other _ _ _ _ hne]

/-- C2, an instance: the specification's example login on a fresh start. -/
theorem login_success_witness :
    acceptT1 (init []).api "/auth/login"
      { email := some "a@b.org", password := some "p", mfa_code := none }
      = .ok { access_token := "T1", refresh_token := "R1", user := researcher } ∧
    (login acceptT1 (init []) (some "a@b.org") (some "p") none).1.token = some "T1" ∧
    (login acceptT1 (init []) (some "a@b.org") (some "p") none).1.user = some researcher ∧
    getItem (login acceptT1 (init []) (some "a@b.org") (some "p") none).1.localStorage
      "access_token" = some "T1" ∧
    getItem (login acceptT1 (init []) (some "a@b.org") (some "p") none).1.localStorage
      "refresh_token" = some "R1" ∧
    (login acceptT1 (init []) (some "a@b.org") (some "p") none).2 = .ok researcher :=
  ⟨rfl,
    (login_success acceptT1 (init []) (some "a@b.org") (some "p") none
      { access_token := "T1", refresh_token := "R1", user := researcher } rfl).1,
    (login_success acceptT1 (init []) (some "a@b.org") (some "p") none
      { access_token := "T1", refresh_token := "R1", user := researcher } rfl).2.1,
    (login_success acceptT1 (init []) (some "a@b.org") (some "p") none
      { access_token := "T1", refresh_token := "R1", user := researcher } rfl).2.2.1,
    (login_success acceptT1 (init []) (some "a@b.org") (some "p") none
      { access_token := "T1", refresh_token := "R1", user := researcher } rfl).2.2.2.1,
    (login_success acceptT1 (init []) (some "a@b.org") (some "p") none
      { access_token := "T1", refresh_token := "R1", user := researcher } rfl).2.2.2.2.1⟩

/-- C3: when the server rejects a login, the in-memory token, the user, the whole of
storage (so both persisted tokens) and the client are the same after the call as before
it, also after the re-render that the `loading` and `error` updates trigger. -/
theorem login_failure_keeps_session (backend : Backend) (s : Session)
    (email password mfa_code : Option String) (err : AxiosError)
    (hfail : backend s.api "/auth/login"
      { email := email, password := password, mfa_code := mfa_code } = .error err) :
    (login backend s email password mfa_code).1.token = s.token ∧
    (login backend s email password mfa_code).1.user = s.user ∧
    (login backend s email password mfa_code).1.localStorage = s.localStorage ∧
    getItem (login backend s email password mfa_code).1.localStorage "access_token"
      = getItem s.localStorage "access_token" ∧
    getItem (login backend s email password mfa_code).1.localStorage "refresh_token"
      = getItem s.localStorage "refresh_token" ∧
    (login backend s email password mfa_code).1.api = s.api ∧
    isAuthenticated (login backend s email password mfa_code).1 = isAuthenticated s ∧
    (step s (.login backend email password mfa_code)).token = s.token ∧
    (step s (.login backend email password mfa_code)).user = s.user ∧
    (step s (.login backend email password mfa_code)).localStorage = s.localStorage := by
  simp [step, render, login, hfail, isAuthenticated]

/-- C3, an instance: a rejected login on a session restored from storage. -/
theorem login_failure_keeps_session_witness :
    reject401 restored.api "/auth/login"
      { email := some "a@b.org", password := some "bad", mfa_code := none } = .error err401 ∧
    (login reject401 restored (some "a@b.org") (some "bad") none).1.token = some "T0" ∧
    (login reject401 restored (some "a@b.org") (some "bad") none).1.user = none ∧
    (login reject401 restored (some "a@b.org") (some "bad") none).1.localStorage
      = [("access_token", "T0"), ("refresh_token", "R0")] :=
  ⟨rfl,
    (login_failure_keeps_session reject401 restored (some "a@b.org") (some "bad") none err401
      rfl).1,
    (login_failure_keeps_session reject401 restored (some "a@b.org") (some "bad") none err401
      rfl).2.1,
    (login_failure_keeps_session reject401 restored (some "a@b.org") (some "bad") none err401
      rfl).2.2.1⟩

/-- C4, as stated, fails: on a `401` answer with detail `invalid credentials` the error
that `login` rejects with is the request error itself, whose message is not the detail. -/
theorem login_error_message_counterexample :
    (login reject401 (init []) (some "a@b.org") (some "bad") none).2 = .error err401 ∧
    err401.detail = some "invalid credentials" ∧
    err401.message ≠ "invalid credentials" :=
  ⟨rfl, rfl, by decide⟩

/-- C4, amended: when the server rejects a login, `login` rejects with the very error the
request failed with, unchanged, and sets the store's `error` field to the detail of the
server's response body when one was supplied and is not empty, and to `Login failed`
when there is no response, no body, no detail, or an empty detail. -/
theorem login_failure_rethrows (backend : Backend) (s : Session)
    (email password mfa_code : Option String) (err : AxiosError)
    (hfail : backend s.api "/auth/login"
      { email := email, password := password, mfa_code := mfa_code } = .error err) :
    (login backend s email password mfa_code).2 = .error err ∧
    (login backend s email password mfa_code).1.error = some (orElse err.detail "Login failed") ∧
    (∀ d, err.detail = some d → d ≠ "" →
      (login backend s email password mfa_code).1.error = some d) ∧
    (err.detail = none ∨ err.detail = some "" →
      (login backend s email password mfa_code).1.error = some "Login failed") ∧
    (login backend s email password mfa_code).1.loading = false ∧
    (∀ status d,
      err.response = some { status := status, data := some { detail := some d } } → d ≠ "" →
      (login backend s email password mfa_code).1.error = some d) ∧
    (err.response = none
        ∨ (∃ status, err.response = some { status := status, data := none })
        ∨ (∃ status, err.response = some { status := status, data := some { detail := none } })
        ∨ (∃ status, err.response
              = some { status := status, data := some { detail := some "" } }) →
      (login backend s email password mfa_code).1.error = some "Login failed") := by
  have herr : (login backend s email password mfa_code).1.error
      = some (orElse err.detail "Login failed") := by
    simp [login, hfail]
  refine ⟨?_, herr, ?_, ?_, ?_, ?_, ?_⟩
  · simp [login, hfail]
  · intro d hd hne
    simp [login, hfail, hd, orElse, hne]
  · rintro (hd | hd) <;> simp [login, hfail, hd, orElse]
  · simp [login, hfail]
  · intro status d hresp hne
    simp [login, hfail, AxiosError.detail, hresp, orElse, hne]
  · intro hresp
    rcases hresp with h | ⟨status, h⟩ | ⟨status, h⟩ | ⟨status, h⟩ <;>
      simp [login, hfail, AxiosError.detail, h, orElse]

/-- C4, an instance of the amended statement: the `401` answer of the specification
leaves the message `invalid credentials` in the store and is rethrown as it is; a request
that got no answer, and a `500` answer without detail, leave `Login failed`. -/
theorem login_failure_rethrows_witness :
    reject401 (init []).api "/auth/login"
      { email := some "a@b.org", password := some "bad", mfa_code := none } = .error err401 ∧
    (login reject401 (init []) (some "a@b.org") (some "bad") none).2 = .error err401 ∧
    (login reject401 (init []) (some "a@b.org") (some "bad") none).1.error
      = some "invalid credentials" ∧
    (login offline (init []) (some "a@b.org") (some "bad") none).1.error
      = some "Login failed" ∧
    (login reject500 (init []) (some "a@b.org") (some "bad") none).1.error
      = some "Login failed" :=
  ⟨rfl,
    (login_failure_rethrows reject401 (init []) (some "a@b.org") (some "bad") none err401 rfl).1,
    (login_failure_rethrows reject401 (init []) (some "a@b.org") (some "bad") none err401
      rfl).2.2.2.2.2.1 401 "invalid credentials" rfl (by decide),
    (login_failure_rethrows offline (init []) (some "a@b.org") (some "bad") none networkError
      rfl).2.2.2.2.2.2 (Or.inl rfl),
    (login_failure_rethrows reject500 (init []) (some "a@b.org") (some "bad") none err500
      rfl).2.2.2.2.2.2 (Or.inr (Or.inr (Or.inl ⟨500, rfl⟩)))⟩

/-- C5: in every session state, `logout` leaves `token` and `user` null, leaves storage
without the keys `access_token` and `refresh_token`, and leaves `isAuthenticated` false,
also after the re-render that follows. -/
theorem logout_clears (s : Session) :
    (logout s).token = none ∧
    (logout s).user = none ∧
    getItem (logout s).localStorage "access_token" = none ∧
    getItem (logout s).localStorage "refresh_token" = none ∧
    isAuthenticated (logout s) = false ∧
    (step s .logout).token = none ∧
    (step s .logout).user = none ∧
    getItem (step s .logout).localStorage "access_token" = none ∧
    getItem (step s .logout).localStorage "refresh_token" = none ∧
    isAuthenticated (step s .logout) = false := by
  have hne : ("refresh_token" : String) ≠ "access_token" := by decide
  simp [step, render, logout, isAuthenticated, truthy, getItem, removeItem,
    Dict.get_remove_same, Dict.get_remove_other _ _ _ hne]

/-- C6: in every session state, `isAuthenticated` is true exactly when the token is a
non-empty string; a null token and an empty token both give false. -/
theorem isAuthenticated_iff (s : Session) :
    (isAuthenticated s = true ↔ ∃ t, s.token = some t ∧ t ≠ "") ∧
    (s.token = none → isAuthenticated s = false) ∧
    (s.token = some "" → isAuthenticated s = false) := by
  refine ⟨truthy_iff s.token, ?_, ?_⟩
  · intro h
    simp [isAuthenticated, h, truthy]
  · intro h
    simp [isAuthenticated, h, truthy]

/-- One operation keeps the property that `user` is null whenever `token` is. -/
theorem step_user_token (s : Session) (e : Event) (h : s.user ≠ none → s.token ≠ none) :
    (step s e).user ≠ none → (step s e).token ≠ none := by
  cases e with
  | login backend email password mfa_code =>
    simp only [step, render, login]
    split <;> simp_all
  | logout => simp [step, render, logout]

/-- C7: in every state reached from initialisation, on any storage, by any sequence of
logins (accepted or rejected, by any server) and logouts, `user` is non-null only when
`token` is non-null. -/
theorem user_only_with_token (storage : Storage) (es : List Event) :
    (run (init storage) es).user ≠ none → (run (init storage) es).token ≠ none := by
  have hrun : ∀ (es : List Event) (s : Session), (s.user ≠ none → s.token ≠ none) →
      (run s es).user ≠ none → (run s es).token ≠ none := by
    intro es
    induction es with
    | nil => intro s h; exact h
    | cons e rest ih =>
      intro s h
      exact ih (step s e) (step_user_token s e h)
  exact hrun es (init storage) (by simp [init, render])

/-- C7, an instance: after a rejected login and then an accepted one on a fresh start,
`user` is non-null, and so is `token`. -/
theorem user_only_with_token_witness :
    (run (init []) [.login reject401 (some "a@b.org") (some "bad") none,
        .login acceptT1 (some "a@b.org") (some "p") none]).user ≠ none ∧
    (run (init []) [.login reject401 (some "a@b.org") (some "bad") none,
        .login acceptT1 (some "a@b.org") (some "p") none]).token ≠ none :=
  ⟨by decide,
    user_only_with_token [] [.login reject401 (some "a@b.org") (some "bad") none,
        .login acceptT1 (some "a@b.org") (some "p") none] (by decide)⟩

/-! ## API client -/

/-- C8, as stated, fails: on a fresh start there is no token, and a request through the
client still carries an `Authorization` header, with the empty string as its value. -/
theorem authorization_header_counterexample :
    (init []).token = none ∧
    Dict.get (init []).api.headers "Authorization" = some "" ∧
    requestHeader (init []).api [] "Authorization" = some "" ∧
    requestHeader (init []).api [] "Authorization" ≠ none := by
  decide

/-- C8, amended: in every session state the client created on render sends
`Authorization: Bearer <token>` when the token is a non-empty string, and sends an
`Authorization` header whose value is the empty string when the token is null or empty;
`logout` sets that same empty value on the client it closes over. -/
theorem authorization_header (s : Session) :
    (∀ t, s.token = some t → t ≠ "" →
      requestHeader (render s).api [] "Authorization" = some ("Bearer " ++ t)) ∧
    (s.token = none ∨ s.token = some "" →
      requestHeader (render s).api [] "Authorization" = some "") ∧
    requestHeader (logout s).api [] "Authorization" = some "" ∧
    requestHeader (step s .logout).api [] "Authorization" = some "" := by
  refine ⟨?_, ?_, ?_, ?_⟩
  · intro t ht hne
    simp [requestHeader, render, axiosCreate, Dict.get, ht, truthy, hne, toStr]
  · rintro (h | h) <;> simp [requestHeader, render, axiosCreate, Dict.get, h, truthy]
  · simp [requestHeader, logout, setAuthorization, Dict.get, Dict.set]
  · simp [requestHeader, step, render, logout, axiosCreate, Dict.get, truthy]

/-- C9, as stated, fails: a login that the server accepts with an empty access token
leaves `isAuthenticated` false, and the next request of the re-rendered client does not
carry `Bearer ` followed by that token. -/
theorem login_then_request_counterexample :
    acceptEmpty (init []).api "/auth/login"
      { email := some "a@b.org", password := some "p", mfa_code := none }
      = .ok { access_token := "", refresh_token := "R1", user := researcher } ∧
    isAuthenticated (step (init []) (.login acceptEmpty (some "a@b.org") (some "p") none))
      = false ∧
    requestHeader (step (init []) (.login acceptEmpty (some "a@b.org") (some "p") none)).api []
      "Authorization" ≠ some ("Bearer " ++ "") :=
  ⟨rfl, by decide, by decide⟩

/-- C9, amended: when the server answers a login with a non-empty access token `T`, the
state after the login has `isAuthenticated` true and the role of the response; the next
request carries `Authorization: Bearer T`, both through the client the callback closes
over and through the client of the re-render; and after a logout the next request
carries the empty value, not the old token. -/
theorem login_then_request (backend : Backend) (s : Session)
    (email password mfa_code : Option String) (data : LoginResponse)
    (hok : backend s.api "/auth/login"
      { email := email, password := password, mfa_code := mfa_code } = .ok data)
    (hT : data.access_token ≠ "") :
    isAuthenticated (step s (.login backend email password mfa_code)) = true ∧
    (step s (.login backend email password mfa_code)).user.map (fun u => u.role)
      = some data.user.role ∧
    requestHeader (step s (.login backend email password mfa_code)).api [] "Authorization"
      = some ("Bearer " ++ data.access_token) ∧
    requestHeader (login backend s email password mfa_code).1.api [] "Authorization"
      = some ("Bearer " ++ data.access_token) ∧
    requestHeader (logout (step s (.login backend email password mfa_code))).api []
      "Authorization" = some "" ∧
    requestHeader (step (step s (.login backend email password mfa_code)) .logout).api []
      "Authorization" = some "" ∧
    requestHeader (step (step s (.login backend email password mfa_code)) .logout).api []
      "Authorization" ≠ some ("Bearer " ++ data.access_token) := by
  have hseven : ("Bearer " : String).length = 7 := by decide
  have hlen : ("Bearer " ++ data.access_token).length ≠ ("" : String).length := by
    rw [String.length_append, hseven]
    simp
  have hbearer : ("" : String) ≠ "Bearer " ++ data.access_token := fun h => hlen (by rw [← h])
  simp [step, render, login, logout, hok, isAuthenticated, truthy, hT, requestHeader,
    axiosCreate, setAuthorization, Dict.get, Dict.set, toStr, hbearer]

/-- C9, an instance of the amended statement: the specification's example, token `T1`
for a researcher. -/
theorem login_then_request_witness :
    acceptT1 (init []).api "/auth/login"
      { email := some "a@b.org", password := some "p", mfa_code := none }
      = .ok { access_token := "T1", refresh_token := "R1", user := researcher } ∧
    ("T1" : String) ≠ "" ∧
    isAuthenticated (step (init []) (.login acceptT1 (some "a@b.org") (some "p") none)) = true ∧
    (step (init []) (.login acceptT1 (some "a@b.org") (some "p") none)).user.map
      (fun u => u.role) = some "Researcher" ∧
    requestHeader (step (init []) (.login acceptT1 (some "a@b.org") (some "p") none)).api []
      "Authorization" = some ("Bearer " ++ "T1") :=
  ⟨rfl, by decide,
    (login_then_request acceptT1 (init []) (some "a@b.org") (some "p") none
      { access_token := "T1", refresh_token := "R1", user := researcher } rfl (by decide)).1,
    (login_then_request acceptT1 (init []) (some "a@b.org") (some "p") none
      { access_token := "T1", refresh_token := "R1", user := researcher } rfl (by decide)).2.1,
    (login_then_request acceptT1 (init []) (some "a@b.org") (some "p") none
      { access_token := "T1", refresh_token := "R1", user := researcher } rfl
      (by decide)).2.2.1⟩

/-! ## Role-gated UI -/

/-- C10, as stated, fails: for a lab administrator whose side bar is collapsed, the
`Audit Logs` link is not shown although the role is `Lab Admin`. -/
theorem audit_link_counterexample :
    (ProtectedLayout (some labAdmin) false (.page .DashboardPage)).showsAuditLink = false ∧
    (∃ u, some labAdmin = some u ∧ u.role = "Lab Admin") :=
  ⟨by decide, labAdmin, rfl, rfl⟩

/-- C10, amended: in every session state the lab layout shows the `Audit Logs` link
exactly when its side bar is open and `user` is non-null with role `Lab Admin`; so the
link is hidden when `user` is null and for every other role, whatever the side bar. -/
theorem audit_link_role_gate (s : Session) (sidebarOpen : Bool) (outlet : Element) :
    ((ProtectedLayout s.user sidebarOpen outlet).showsAuditLink = true ↔
      sidebarOpen = true ∧ ∃ u, s.user = some u ∧ u.role = "Lab Admin") ∧
    (s.user = none → (ProtectedLayout s.user sidebarOpen outlet).showsAuditLink = false) ∧
    (∀ u, s.user = some u → u.role ≠ "Lab Admin" →
      (ProtectedLayout s.user sidebarOpen outlet).showsAuditLink = false) := by
  refine ⟨?_, ?_, ?_⟩
  · cases hu : s.user with
    | none => cases sidebarOpen <;> simp +decide [ProtectedLayout, Element.showsAuditLink, sidebarLinks]
    | some u =>
      cases sidebarOpen
      · simp [ProtectedLayout, Element.showsAuditLink]
      · by_cases hr : u.role = "Lab Admin"
        · simp +decide [ProtectedLayout, Element.showsAuditLink, sidebarLinks, hr]
        · simp +decide [ProtectedLayout, Element.showsAuditLink, sidebarLinks, hr]
  · intro hu
    cases sidebarOpen <;> simp +decide [ProtectedLayout, Element.showsAuditLink, sidebarLinks, hu]
  · intro u hu hr
    cases sidebarOpen <;>
      simp +decide [ProtectedLayout, Element.showsAuditLink, sidebarLinks, hu, hr]

/-! ## Logout and persistence -/

theorem Dict.remove_remove_same (d : Dict) (k : String) :
    Dict.remove (Dict.remove d k) k = Dict.remove d k := by
  induction d with
  | nil => rfl
  | cons kv rest ih =>
    obtain ⟨key, v⟩ := kv
    by_cases h : key = k
    · simp [Dict.remove, h, ih]
    · simp [Dict.remove, h, ih]

theorem Dict.remove_comm (d : Dict) (k j : String) :
    Dict.remove (Dict.remove d k) j = Dict.remove (Dict.remove d j) k := by
  induction d with
  | nil => rfl
  | cons kv rest ih =>
    obtain ⟨key, v⟩ := kv
    by_cases hk : key = k
    · subst hk
      by_cases hj : key = j
      · subst hj
        simp [Dict.remove, ih]
      · simp [Dict.remove, hj, ih]
    · by_cases hj : key = j
      · subst hj
        simp [Dict.remove, hk, ih]
      · simp [Dict.remove, hk, hj, ih]

/-- C12: `logout` is idempotent. In every session state a second `logout` changes nothing:
token, user, storage and the client, with its `Authorization` header, are as the first
call left them, with or without the re-renders in between, and `isAuthenticated` is false
after the first call and after the second. -/
theorem logout_idempotent (s : Session) :
    logout (logout s) = logout s ∧
    step (step s .logout) .logout = step s .logout ∧
    (logout (logout s)).token = (logout s).token ∧
    (logout (logout s)).user = (logout s).user ∧
    (logout (logout s)).localStorage = (logout s).localStorage ∧
    requestHeader (logout (logout s)).api [] "Authorization"
      = requestHeader (logout s).api [] "Authorization" ∧
    isAuthenticated (logout s) = false ∧
    isAuthenticated (logout (logout s)) = false := by
  have hst : ∀ st : Storage,
      removeItem (removeItem (removeItem (removeItem st "access_token") "refresh_token")
        "access_token") "refresh_token"
      = removeItem (removeItem st "access_token") "refresh_token" := by
    intro st
    simp only [removeItem]
    rw [Dict.remove_comm (Dict.remove st "access_token") "refresh_token" "access_token",
      Dict.remove_remove_same, Dict.remove_remove_same]
  have hapi : ∀ api : AxiosInstance,
      setAuthorization (setAuthorization api "") "" = setAuthorization api "" := by
    intro api
    simp [setAuthorization, Dict.set, Dict.remove, Dict.remove_remove_same]
  have h1 : logout (logout s) = logout s := by
    simp [logout, hst, hapi]
  have h2 : step (step s .logout) .logout = step s .logout := by
    simp [step, render, logout, hst]
  refine ⟨h1, h2, ?_, ?_, ?_, ?_, ?_, ?_⟩
  · rw [h1]
  · rw [h1]
  · rw [h1]
  · rw [h1]
  · simp [logout, isAuthenticated, truthy]
  · simp [logout, isAuthenticated, truthy]

/-- C13, as stated, fails: a storage that holds the empty string under `access_token`
gives an initial session that has that token and is not authenticated. -/
theorem init_counterexample :
    getItem [("access_token", "")] "access_token" = some "" ∧
    (init [("access_token", "")]).token = some "" ∧
    isAuthenticated (init [("access_token", "")]) = false := by
  decide

/-- C13, amended: for every storage content, the initial session has the stored access
token as its token and a null user; it is authenticated when the stored token is a
non-empty string, and it has no token and is not authenticated when storage holds none. -/
theorem init_from_storage (storage : Storage) :
    (init storage).token = getItem storage "access_token" ∧
    (init storage).user = none ∧
    (init storage).localStorage = storage ∧
    (∀ t, getItem storage "access_token" = some t → t ≠ "" →
      (init storage).token = some t ∧ isAuthenticated (init storage) = true) ∧
    (getItem storage "access_token" = none →
      (init storage).token = none ∧ isAuthenticated (init storage) = false) ∧
    (getItem storage "access_token" = some "" → isAuthenticated (init storage) = false) := by
  refine ⟨rfl, rfl, rfl, ?_, ?_, ?_⟩
  · intro t ht hne
    simp [init, render, isAuthenticated, ht, truthy, hne]
  · intro h
    simp [init, render, isAuthenticated, h, truthy]
  · intro h
    simp [init, render, isAuthenticated, h, truthy]

/-- C14, as stated, fails: after a login that the server accepts with an empty access
token, the session re-initialised from the storage left behind is not authenticated. -/
theorem reload_counterexample :
    acceptEmpty (init []).api "/auth/login"
      { email := some "a@b.org", password := some "p", mfa_code := none }
      = .ok { access_token := "", refresh_token := "R1", user := researcher } ∧
    (init (step (init []) (.login acceptEmpty (some "a@b.org") (some "p") none)).localStorage).token
      = some "" ∧
    isAuthenticated
      (init (step (init []) (.login acceptEmpty (some "a@b.org") (some "p") none)).localStorage)
      = false :=
  ⟨rfl, by decide, by decide⟩

/-- C14, amended: when the server answers a login with `data`, the session re-initialised
from the storage left by that login has `data.access_token` as its token, a null user,
and is authenticated when that token is not empty; the session re-initialised from the
storage left by a logout after that login has no token and is not authenticated. -/
theorem reload_round_trip (backend : Backend) (s : Session)
    (email password mfa_code : Option String) (data : LoginResponse)
    (hok : backend s.api "/auth/login"
      { email := email, password := password, mfa_code := mfa_code } = .ok data) :
    (init (step s (.login backend email password mfa_code)).localStorage).token
      = some data.access_token ∧
    (init (step s (.login backend email password mfa_code)).localStorage).user = none ∧
    getItem (step s (.login backend email password mfa_code)).localStorage "refresh_token"
      = some data.refresh_token ∧
    (data.access_token ≠ "" →
      isAuthenticated (init (step s (.login backend email password mfa_code)).localStorage)
        = true) ∧
    (init (step (step s (.login backend email password mfa_code)) .logout).localStorage).token
      = none ∧
    isAuthenticated
      (init (step (step s (.login backend email password mfa_code)) .logout).localStorage)
      = false := by
  have hne : ("refresh_token" : String) ≠ "access_token" := by decide
  have hget : getItem (step s (.login backend email password mfa_code)).localStorage
      "access_token" = some data.access_token := by
    simp [step, render, login, hok, getItem, setItem, Dict.get_set_same,
      Dict.get_set_other _ _ _ _ hne]
  have hgone : getItem (step (step s (.login backend email password mfa_code)) .logout).localStorage
      "access_token" = none := by
    simp [step, render, logout, getItem, removeItem, Dict.get_remove_same,
      Dict.get_remove_other _ _ _ hne]
  refine ⟨?_, rfl, ?_, ?_, ?_, ?_⟩
  · simp [init, render, hget]
  · simp [step, render, login, hok, getItem, setItem, Dict.get_set_same]
  · intro hT
    simp [init, render, isAuthenticated, hget, truthy, hT]
  · simp [init, render, hgone]
  · simp [init, render, isAuthenticated, hgone, truthy]

/-- C14, an instance of the amended statement: the specification's example login, then a
reload. -/
theorem reload_round_trip_witness :
    (init (step (init []) (.login acceptT1 (some "a@b.org") (some "p") none)).localStorage).token
      = some "T1" ∧
    (("T1" : String) ≠ "" →
      isAuthenticated
        (init (step (init []) (.login acceptT1 (some "a@b.org") (some "p") none)).localStorage)
        = true) :=
  ⟨(reload_round_trip acceptT1 (init []) (some "a@b.org") (some "p") none
      { access_token := "T1", refresh_token := "R1", user := researcher } rfl).1,
    (reload_round_trip acceptT1 (init []) (some "a@b.org") (some "p") none
      { access_token := "T1", refresh_token := "R1", user := researcher } rfl).2.2.2.1⟩

/-! ## Unknown paths and the login route -/

/-- On a location that no declared route matches, the first match of the table is the
catch-all route. -/
theorem App_unmatched (s : Session) (sidebarOpen : Bool) (path : List String)
    (hnone : matchesDeclared path = false) : App s sidebarOpen path = .navigate "/" := by
  simp only [matchesDeclared, routes, List.any_cons, List.any_nil, Bool.or_false,
    Bool.or_eq_false_iff, Bool.and_eq_false_iff] at hnone
  simp only [App, matchRoutes, routes]
  simp_all +decide
  simp [matchPath]

/-- C15: for every location that matches none of the declared routes, and every session
state, `App` renders a redirect to `/`, and the location `/` renders the home page in the
public layout, also for an authenticated session. -/
theorem unknown_path_falls_back (s : Session) (sidebarOpen : Bool) (path : List String)
    (hnone : matchesDeclared path = false) :
    App s sidebarOpen path = .navigate "/" ∧
    App s sidebarOpen (segmentsOf "/") = PublicLayout (.page .HomePage) := by
  refine ⟨App_unmatched s sidebarOpen path hnone, ?_⟩
  have hroot : segmentsOf "/" = [] := by decide
  rw [hroot]
  rfl

/-- C15, an instance: an unknown path under `/lab/`, in an authenticated session. -/
theorem unknown_path_falls_back_witness :
    matchesDeclared ["lab", "nowhere"] = false ∧
    isAuthenticated restored = true ∧
    App restored true ["lab", "nowhere"] = .navigate "/" :=
  ⟨by decide, by decide,
    (unknown_path_falls_back restored true ["lab", "nowhere"] (by decide)).1⟩

/-- C16: in every session state, authenticated or not, the location `/lab/login` renders
the login page itself, outside any layout and without a redirect; rendering reads the
session and writes nothing to it. -/
theorem login_route_open (s : Session) (sidebarOpen : Bool) :
    App s sidebarOpen (segmentsOf "/lab/login") = .page .LoginPage ∧
    App s sidebarOpen ["lab", "login"] = .page .LoginPage ∧
    (App s sidebarOpen ["lab", "login"]).content = [.LoginPage] ∧
    (∀ target, App s sidebarOpen ["lab", "login"] ≠ .navigate target) := by
  have hseg : segmentsOf "/lab/login" = ["lab", "login"] := by decide
  have happ : App s sidebarOpen ["lab", "login"] = .page .LoginPage := rfl
  refine ⟨?_, happ, ?_, ?_⟩
  · rw [hseg, happ]
  · rw [happ]; rfl
  · intro target
    rw [happ]
    simp

/-! ## The authenticated interval -/

theorem run_concat (s : Session) (es : List Event) (e : Event) :
    run s (es ++ [e]) = step (run s es) e := by
  simp [run, List.foldl_append]

theorem isAuthenticated_step_logout (s : Session) : isAuthenticated (step s .logout) = false := by
  simp [step, render, logout, isAuthenticated, truthy]

theorem isAuthenticated_step_accepted (backend : Backend) (s : Session)
    (email password mfa_code : Option String) (data : LoginResponse)
    (hok : backend s.api "/auth/login"
      { email := email, password := password, mfa_code := mfa_code } = .ok data)
    (hT : data.access_token ≠ "") :
    isAuthenticated (step s (.login backend email password mfa_code)) = true := by
  simp [step, render, login, hok, isAuthenticated, truthy, hT]

theorem isAuthenticated_step_rejected (backend : Backend) (s : Session)
    (email password mfa_code : Option String) (err : AxiosError)
    (hfail : backend s.api "/auth/login"
      { email := email, password := password, mfa_code := mfa_code } = .error err) :
    isAuthenticated (step s (.login backend email password mfa_code)) = isAuthenticated s := by
  simp [step, render, login, hfail, isAuthenticated]

theorem succeeds_accepted (backend : Backend) (s : Session)
    (email password mfa_code : Option String) (data : LoginResponse)
    (hok : backend s.api "/auth/login"
      { email := email, password := password, mfa_code := mfa_code } = .ok data) :
    succeeds s (.login backend email password mfa_code) = true := by
  simp [succeeds, login, hok]

theorem succeeds_rejected (backend : Backend) (s : Session)
    (email password mfa_code : Option String) (err : AxiosError)
    (hfail : backend s.api "/auth/login"
      { email := email, password := password, mfa_code := mfa_code } = .error err) :
    succeeds s (.login backend email password mfa_code) = false := by
  simp [succeeds, login, hfail]

/-- C11, as stated, fails: a store started on a storage that holds an access token is
authenticated from process start, before any login. -/
theorem authenticated_interval_counterexample :
    getItem [("access_token", "T0"), ("refresh_token", "R0")] "access_token" = some "T0" ∧
    isAuthenticated (run (init [("access_token", "T0"), ("refresh_token", "R0")]) []) = true := by
  decide

/-- C11, amended: for a store that is not authenticated at process start, and servers
that hand out only non-empty access tokens, after any sequence of logins and logouts
`isAuthenticated` is true exactly when some login of the sequence was accepted and no
logout came after it: true from an accepted login until the next logout, false from
process start until the first accepted login and from a logout until the next accepted
login. -/
theorem authenticated_interval (storage : Storage) (es : List Event)
    (hstart : isAuthenticated (init storage) = false)
    (hservers : ∀ backend email password mfa_code,
      Event.login backend email password mfa_code ∈ es →
      ∀ api url body data, backend api url body = .ok data → data.access_token ≠ "") :
    isAuthenticated (run (init storage) es) = true ↔
      ∃ pre e post, es = pre ++ e :: post ∧ succeeds (run (init storage) pre) e = true ∧
        ∀ x ∈ post, x.isLogout = false := by
  induction es using List.reverseRecOn with
  | nil => simp [run, hstart]
  | append_singleton l a ih =>
    have hl : ∀ backend email password mfa_code,
        Event.login backend email password mfa_code ∈ l →
        ∀ api url body data, backend api url body = .ok data → data.access_token ≠ "" :=
      fun backend email password mfa_code hmem =>
        hservers backend email password mfa_code (List.mem_append_left _ hmem)
    have ih1 := ih hl
    rw [run_concat]
    -- every way to split `l ++ [a]` around an event either ends at `a` or lies within `l`
    have hsplit : ∀ pre e post, l ++ [a] = pre ++ e :: post →
        (post = [] ∧ pre = l ∧ e = a) ∨ ∃ post1, post = post1 ++ [a] ∧ l = pre ++ e :: post1 := by
      intro pre e post heq
      rcases List.eq_nil_or_concat post with hp | ⟨post1, b, hp⟩
      · subst hp
        obtain ⟨h1, h2⟩ := List.append_inj' heq rfl
        refine Or.inl ⟨rfl, h1.symm, ?_⟩
        simpa using h2.symm
      · rw [List.concat_eq_append] at hp
        subst hp
        have heq1 : l ++ [a] = (pre ++ e :: post1) ++ [b] := by simpa using heq
        obtain ⟨h1, h2⟩ := List.append_inj' heq1 rfl
        have hb : b = a := by simpa using h2.symm
        subst hb
        exact Or.inr ⟨post1, rfl, h1⟩
    cases a with
    | logout =>
      rw [isAuthenticated_step_logout]
      constructor
      · intro h
        cases h
      · rintro ⟨pre, e, post, heq, hsucc, hpost⟩
        rcases hsplit pre e post heq with ⟨_, _, he⟩ | ⟨post1, hp, _⟩
        · subst he
          simp [succeeds] at hsucc
        · have hlast := hpost Event.logout (by rw [hp]; simp)
          simp [Event.isLogout] at hlast
    | login backend email password mfa_code =>
      cases hout : backend (run (init storage) l).api "/auth/login"
          { email := email, password := password, mfa_code := mfa_code } with
      | ok data =>
        have hT : data.access_token ≠ "" :=
          hservers backend email password mfa_code (by simp) _ _ _ data hout
        rw [isAuthenticated_step_accepted backend _ email password mfa_code data hout hT]
        refine ⟨fun _ => ⟨l, _, [], rfl, ?_, by simp⟩, fun _ => rfl⟩
        exact succeeds_accepted backend _ email password mfa_code data hout
      | error err =>
        rw [isAuthenticated_step_rejected backend _ email password mfa_code err hout, ih1]
        constructor
        · rintro ⟨pre, e, post, heq, hsucc, hpost⟩
          refine ⟨pre, e, post ++ [Event.login backend email password mfa_code], ?_, hsucc, ?_⟩
          · rw [heq]; simp
          · intro x hx
            rcases List.mem_append.mp hx with hx | hx
            · exact hpost x hx
            · simp at hx
              subst hx
              rfl
        · rintro ⟨pre, e, post, heq, hsucc, hpost⟩
          rcases hsplit pre e post heq with ⟨_, hpre, he⟩ | ⟨post1, hp, hl1⟩
          · subst hpre
            subst he
            rw [succeeds_rejected backend _ email password mfa_code err hout] at hsucc
            cases hsucc
          · refine ⟨pre, e, post1, hl1, hsucc, ?_⟩
            intro x hx
            exact hpost x (by rw [hp]; exact List.mem_append_left _ hx)

/-- C11, an instance of the amended statement: on a fresh start, a rejected login, an
accepted one, a logout and another accepted login leave the store authenticated. -/
theorem authenticated_interval_witness :
    isAuthenticated (init []) = false ∧
    isAuthenticated (run (init [])
      [ .login reject401 (some "a@b.org") (some "bad") none
      , .login acceptT1 (some "a@b.org") (some "p") none
      , .logout
      , .login acceptT1 (some "a@b.org") (some "p") none ]) = true :=
  ⟨by decide,
    (authenticated_interval []
      [ .login reject401 (some "a@b.org") (some "bad") none
      , .login acceptT1 (some "a@b.org") (some "p") none
      , .logout
      , .login acceptT1 (some "a@b.org") (some "p") none ]
      (by decide)
      (by
        intro backend email password mfa_code hmem api url body data hok
        simp only [List.mem_cons, List.mem_singleton, Event.login.injEq, List.not_mem_nil,
          or_false] at hmem
        rcases hmem with ⟨hb, -⟩ | ⟨hb, -⟩ | h | ⟨hb, -⟩
        · subst hb
          simp [reject401] at hok
        · subst hb
          simp only [acceptT1, Except.ok.injEq] at hok
          subst hok
          decide
        · cases h
        · subst hb
          simp only [acceptT1, Except.ok.injEq] at hok
          subst hok
          decide)).mpr
      ⟨[ .login reject401 (some "a@b.org") (some "bad") none
       , .login acceptT1 (some "a@b.org") (some "p") none
       , .logout ],
       .login acceptT1 (some "a@b.org") (some "p") none, [], rfl, rfl, by simp⟩⟩

/-! ## Errors on the views -/

/-- C17, on the code: a failed fetch of the dashboard is caught and ends `loading`, but
leaves no error state behind. From the initial hooks it leaves exactly what a successful
fetch of an empty list leaves, and the card shows `No samples found`. The sample page, in
the same situation, sets `error` to `Failed to load results` and shows it. Neither effect
rejects. -/
theorem dashboard_failure_unreported :
    (∀ (server : GetBackend (List Sample)) (api : AxiosInstance) (st : DashboardState)
        (err : AxiosError),
      server (api.get "/samples"
        (if truthy st.selectedStatus then [("status", toStr st.selectedStatus)] else []) [])
        = .error err →
      DashboardPage.fetchSamples server api st = ({ st with loading := false }, .ok ())) ∧
    DashboardPage.fetchSamples (unavailable (List Sample)) (init []).api DashboardPage.initial
      = DashboardPage.fetchSamples (answering (List Sample) []) (init []).api
          DashboardPage.initial ∧
    DashboardPage.samplesCard
      (DashboardPage.fetchSamples (unavailable (List Sample)) (init []).api
        DashboardPage.initial).1 = .noSamplesFound ∧
    (∀ (server : GetBackend ResultsDocument) (s : Session) (sampleId : String)
        (st : SampleDetailState) (err : AxiosError),
      server (SampleDetailPage.request s sampleId) = .error err →
      (SampleDetailPage.fetchResults server s sampleId st).2.1.error
          = some "Failed to load results" ∧
      (SampleDetailPage.fetchResults server s sampleId st).2.1.loading = false ∧
      SampleDetailPage.errorBox (SampleDetailPage.fetchResults server s sampleId st).2.1
          = some "Failed to load results" ∧
      (SampleDetailPage.fetchResults server s sampleId st).2.2 = .ok ()) := by
  refine ⟨?_, rfl, by decide, ?_⟩
  · intro server api st err hfail
    simp only [DashboardPage.fetchSamples, hfail]
  · intro server s sampleId st err hfail
    simp [SampleDetailPage.fetchResults, hfail, SampleDetailPage.errorBox, truthy]

/-- C18: when the server rejects the login of a submitted form, the store's `error` and
the page's `error` both hold the detail of the server's response body when it is a
non-empty string, and `Login failed` when there is no response, no body, no detail or an
empty detail; the page shows that message inline, and `navigate` is not called. When the
server accepts, `navigate('/lab/dashboard')` is called and neither the store nor the page
holds or shows an error. On the `401` answer of the specification the message is
`invalid credentials`; on a request without answer it is `Login failed`. -/
theorem login_page_submit (backend : Backend) (s : Session) (st : LoginPageState) :
    (∀ err, backend s.api "/auth/login"
        { email := some st.email, password := some st.password, mfa_code := some st.mfaCode }
        = .error err →
      (LoginPage.handleSubmit backend s st).session.error
        = some (orElse err.detail "Login failed") ∧
      (LoginPage.handleSubmit backend s st).view.error
        = some (orElse err.detail "Login failed") ∧
      LoginPage.errorBox (LoginPage.handleSubmit backend s st).view
        = some (orElse err.detail "Login failed") ∧
      (∀ d, err.detail = some d → d ≠ "" → orElse err.detail "Login failed" = d) ∧
      (err.detail = none ∨ err.detail = some "" →
        orElse err.detail "Login failed" = "Login failed") ∧
      (LoginPage.handleSubmit backend s st).navigated = none ∧
      (LoginPage.handleSubmit backend s st).view.loading = false ∧
      (∀ status d,
        err.response = some { status := status, data := some { detail := some d } } →
        d ≠ "" →
        (LoginPage.handleSubmit backend s st).session.error = some d ∧
        (LoginPage.handleSubmit backend s st).view.error = some d ∧
        LoginPage.errorBox (LoginPage.handleSubmit backend s st).view = some d) ∧
      (err.response = none
          ∨ (∃ status, err.response = some { status := status, data := none })
          ∨ (∃ status, err.response
                = some { status := status, data := some { detail := none } })
          ∨ (∃ status, err.response
                = some { status := status, data := some { detail := some "" } }) →
        (LoginPage.handleSubmit backend s st).session.error = some "Login failed" ∧
        (LoginPage.handleSubmit backend s st).view.error = some "Login failed" ∧
        LoginPage.errorBox (LoginPage.handleSubmit backend s st).view
          = some "Login failed")) ∧
    (∀ data, backend s.api "/auth/login"
        { email := some st.email, password := some st.password, mfa_code := some st.mfaCode }
        = .ok data →
      (LoginPage.handleSubmit backend s st).navigated = some "/lab/dashboard" ∧
      (LoginPage.handleSubmit backend s st).session.error = none ∧
      (LoginPage.handleSubmit backend s st).view.error = none ∧
      LoginPage.errorBox (LoginPage.handleSubmit backend s st).view = none ∧
      (LoginPage.handleSubmit backend s st).view.loading = false) ∧
    ((LoginPage.handleSubmit reject401 (init []) LoginPage.initial).session.error
        = some "invalid credentials" ∧
      LoginPage.errorBox (LoginPage.handleSubmit reject401 (init []) LoginPage.initial).view
        = some "invalid credentials" ∧
      (LoginPage.handleSubmit reject401 (init []) LoginPage.initial).navigated = none) ∧
    ((LoginPage.handleSubmit offline (init []) LoginPage.initial).session.error
        = some "Login failed" ∧
      LoginPage.errorBox (LoginPage.handleSubmit offline (init []) LoginPage.initial).view
        = some "Login failed" ∧
      LoginPage.errorBox (LoginPage.handleSubmit reject500 (init []) LoginPage.initial).view
        = some "Login failed") ∧
    ((LoginPage.handleSubmit acceptT1 (init []) LoginPage.initial).navigated
        = some "/lab/dashboard" ∧
      LoginPage.errorBox (LoginPage.handleSubmit acceptT1 (init []) LoginPage.initial).view
        = none) := by
  refine ⟨?_, ?_, by decide, by decide, by decide⟩
  · intro err hfail
    have hne : orElse err.detail "Login failed" ≠ "" := by
      unfold orElse
      split
      · decide
      · split
        · simp_all
        · decide
    have hsession : (LoginPage.handleSubmit backend s st).session.error
        = some (orElse err.detail "Login failed") := by
      simp [LoginPage.handleSubmit, login, hfail]
    have hview : (LoginPage.handleSubmit backend s st).view.error
        = some (orElse err.detail "Login failed") := by
      simp [LoginPage.handleSubmit, login, hfail]
    have hbox : LoginPage.errorBox (LoginPage.handleSubmit backend s st).view
        = some (orElse err.detail "Login failed") := by
      simp [LoginPage.handleSubmit, login, hfail, LoginPage.errorBox, truthy, hne]
    refine ⟨hsession, hview, hbox, ?_, ?_, ?_, ?_, ?_, ?_⟩
    · intro d hd hdne
      simp [orElse, hd, hdne]
    · rintro (hd | hd) <;> simp [orElse, hd]
    · simp [LoginPage.handleSubmit, login, hfail]
    · simp [LoginPage.handleSubmit, login, hfail]
    · intro status d hresp hdne
      have hmsg : orElse err.detail "Login failed" = d := by
        simp [AxiosError.detail, hresp, orElse, hdne]
      rw [hsession, hview, hbox, hmsg]
      exact ⟨rfl, rfl, rfl⟩
    · intro hresp
      have hmsg : orElse err.detail "Login failed" = "Login failed" := by
        rcases hresp with h | ⟨status, h⟩ | ⟨status, h⟩ | ⟨status, h⟩ <;>
          simp [AxiosError.detail, h, orElse]
      rw [hsession, hview, hbox, hmsg]
      exact ⟨rfl, rfl, rfl⟩
  · intro data hok
    simp [LoginPage.handleSubmit, login, hok, LoginPage.errorBox, truthy]

/-- C19: in every session state and for every sample id, two fetches of the sample's
results in a row, whatever the server answers, send the same request, with the same
`Authorization` header, `Bearer ` followed by the stored access token, and leave the
session store as it was. -/
theorem refetch_same_request (server1 server2 : GetBackend ResultsDocument) (s : Session)
    (sampleId : String) (st : SampleDetailState) :
    SampleDetailPage.request (SampleDetailPage.fetchResults server1 s sampleId st).1 sampleId
      = SampleDetailPage.request s sampleId ∧
    (SampleDetailPage.request (SampleDetailPage.fetchResults server1 s sampleId st).1
        sampleId).authorization
      = (SampleDetailPage.request s sampleId).authorization ∧
    (SampleDetailPage.request s sampleId).authorization
      = some ("Bearer " ++ toStr (getItem s.localStorage "access_token")) ∧
    (SampleDetailPage.fetchResults server1 s sampleId st).1 = s ∧
    (SampleDetailPage.fetchResults server2
      (SampleDetailPage.fetchResults server1 s sampleId st).1 sampleId
      (SampleDetailPage.fetchResults server1 s sampleId st).2.1).1 = s := by
  have h1 : ∀ (server : GetBackend ResultsDocument) (st1 : SampleDetailState),
      (SampleDetailPage.fetchResults server s sampleId st1).1 = s := by
    intro server st1
    unfold SampleDetailPage.fetchResults
    split <;> rfl
  refine ⟨by rw [h1], by rw [h1], ?_, h1 server1 st, ?_⟩
  · simp [SampleDetailPage.request, AxiosInstance.get, requestHeader, Dict.get]
  · rw [h1 server1 st, h1 server2]

/-! ## A login that settles after a logout -/

/-- A login whose answer arrives with no event in between is the callback `login`: the
session of `loginSettle`, with the client of the callback after line 38 as its `api`. -/
theorem login_eq_issue_settle (backend : Backend) (s : Session)
    (email password mfa_code : Option String) :
    login backend s email password mfa_code =
      ({ (loginSettle (loginIssue s email password mfa_code).1
            (loginIssue s email password mfa_code).2
            (backend s.api "/auth/login"
              { email := email, password := password, mfa_code := mfa_code })).1 with
          api := (loginSettle (loginIssue s email password mfa_code).1
            (loginIssue s email password mfa_code).2
            (backend s.api "/auth/login"
              { email := email, password := password, mfa_code := mfa_code })).2.1 },
        (loginSettle (loginIssue s email password mfa_code).1
            (loginIssue s email password mfa_code).2
            (backend s.api "/auth/login"
              { email := email, password := password, mfa_code := mfa_code })).2.2) := by
  cases hout : backend s.api "/auth/login"
      { email := email, password := password, mfa_code := mfa_code } with
  | ok data => simp [login, hout, loginSettle, loginIssue]
  | error err => simp [login, hout, loginSettle, loginIssue]

/-- C20, as stated, fails: on a fresh start, a login is issued, a logout clears the
session, and then the login settles with token `T1`; after that the store is
authenticated and storage holds both tokens. -/
theorem late_login_counterexample :
    isAuthenticated (step (render (loginIssue (init []) (some "a@b.org") (some "p") none).1)
      .logout) = false ∧
    isAuthenticated (lateLogin (init []) (some "a@b.org") (some "p") none
      (.ok { access_token := "T1", refresh_token := "R1", user := researcher })) = true ∧
    getItem (lateLogin (init []) (some "a@b.org") (some "p") none
      (.ok { access_token := "T1", refresh_token := "R1", user := researcher })).localStorage
      "access_token" = some "T1" ∧
    getItem (lateLogin (init []) (some "a@b.org") (some "p") none
      (.ok { access_token := "T1", refresh_token := "R1", user := researcher })).localStorage
      "refresh_token" = some "R1" := by
  decide

/-- C20, amended: the last write wins. A login that was issued before a logout and is
accepted after it sets token, user and both stored tokens from its answer, so that the
store is authenticated again when the token is not empty, and the client of the next
render carries that token; such a login that is rejected after the logout leaves the
session cleared. In whatever state a login is accepted, it sets token, user and the
stored tokens. -/
theorem late_login_last_write_wins (s : Session) (email password mfa_code : Option String) :
    (∀ data : LoginResponse,
      (lateLogin s email password mfa_code (.ok data)).token = some data.access_token ∧
      (lateLogin s email password mfa_code (.ok data)).user = some data.user ∧
      getItem (lateLogin s email password mfa_code (.ok data)).localStorage "access_token"
        = some data.access_token ∧
      getItem (lateLogin s email password mfa_code (.ok data)).localStorage "refresh_token"
        = some data.refresh_token ∧
      (data.access_token ≠ "" →
        isAuthenticated (lateLogin s email password mfa_code (.ok data)) = true ∧
        requestHeader (lateLogin s email password mfa_code (.ok data)).api [] "Authorization"
          = some ("Bearer " ++ data.access_token))) ∧
    (∀ err : AxiosError,
      (lateLogin s email password mfa_code (.error err)).token = none ∧
      (lateLogin s email password mfa_code (.error err)).user = none ∧
      getItem (lateLogin s email password mfa_code (.error err)).localStorage "access_token"
        = none ∧
      getItem (lateLogin s email password mfa_code (.error err)).localStorage "refresh_token"
        = none ∧
      isAuthenticated (lateLogin s email password mfa_code (.error err)) = false) ∧
    (∀ (now : Session) (p : PendingLogin) (data : LoginResponse),
      (loginSettle now p (.ok data)).1.token = some data.access_token ∧
      (loginSettle now p (.ok data)).1.user = some data.user ∧
      getItem (loginSettle now p (.ok data)).1.localStorage "access_token"
        = some data.access_token ∧
      getItem (loginSettle now p (.ok data)).1.localStorage "refresh_token"
        = some data.refresh_token) := by
  have hne : ("refresh_token" : String) ≠ "access_token" := by decide
  refine ⟨?_, ?_, ?_⟩
  · intro data
    refine ⟨?_, ?_, ?_, ?_, ?_⟩
    · simp [lateLogin, loginSettle, render]
    · simp [lateLogin, loginSettle, render]
    · simp [lateLogin, loginSettle, render, getItem, setItem, Dict.get_set_same,
        Dict.get_set_other _ _ _ _ hne]
    · simp [lateLogin, loginSettle, render, getItem, setItem, Dict.get_set_same]
    · intro hT
      simp [lateLogin, loginSettle, render, isAuthenticated, truthy, hT, requestHeader,
        axiosCreate, Dict.get, toStr]
  · intro err
    simp [lateLogin, loginSettle, loginIssue, step, render, logout, isAuthenticated, truthy,
      getItem, removeItem, Dict.get_remove_same, Dict.get_remove_other _ _ _ hne]
  · intro now p data
    simp [loginSettle, getItem, setItem, Dict.get_set_same, Dict.get_set_other _ _ _ _ hne]

/-! ## Required fields of a login -/

/-- C21, as stated, fails: a call of `login` without e-mail and with an empty password,
which the server accepts, populates the session. -/
theorem login_required_fields_counterexample :
    (login acceptT1 (init []) none (some "") none).1.token = some "T1" ∧
    (login acceptT1 (init []) none (some "") none).1.user = some researcher ∧
    getItem (login acceptT1 (init []) none (some "") none).1.localStorage "access_token"
      = some "T1" ∧
    isAuthenticated (step (init []) (.login acceptT1 none (some "") none)) = true := by
  decide

/-- C21, amended: `login` does not check its arguments. Whatever `email` and `password`
are, absent and empty included, it posts them and populates the session when the server
accepts. The fields are required by the login form only: a submission with an empty
e-mail or an empty password runs nothing and leaves session and page as they were.
A login without `mfa_code` posts `mfa_code: null`: its result is fixed by the server's
answer to that body. -/
theorem login_posts_unchecked (backend : Backend) (s : Session)
    (email password mfa_code : Option String) (validEmail : String → Bool)
    (st : LoginPageState) :
    (∀ data, backend s.api "/auth/login"
        { email := email, password := password, mfa_code := mfa_code } = .ok data →
      (login backend s email password mfa_code).1.token = some data.access_token ∧
      (login backend s email password mfa_code).1.user = some data.user ∧
      (login backend s email password mfa_code).2 = .ok data.user) ∧
    (st.email = "" ∨ st.password = "" →
      LoginPage.submitForm validEmail backend s st
        = { session := s, view := st, navigated := none }) ∧
    (∀ other : Backend,
      other s.api "/auth/login" { email := email, password := password, mfa_code := none }
        = backend s.api "/auth/login" { email := email, password := password, mfa_code := none } →
      login other s email password none = login backend s email password none) := by
  refine ⟨?_, ?_, ?_⟩
  · intro data hok
    simp [login, hok]
  · rintro (h | h) <;> simp [LoginPage.submitForm, h]
  · intro other hsame
    simp only [login, hsame]

/-! ## The audit trail -/

theorem fetchResults_auditLogs (server : GetBackend ResultsDocument) (s : Session)
    (sampleId : String) (st : SampleDetailState) :
    (SampleDetailPage.fetchResults server s sampleId st).2.1.auditLogs = st.auditLogs := by
  unfold SampleDetailPage.fetchResults
  split <;> rfl

/-- C22, on the code: whatever fetches have run on the sample page, the hook `auditLogs`
is the empty list and the audit trail card shows `No access logs`; the component
`AuditLog` would show the table for any non-empty list of entries. -/
theorem audit_trail_always_empty (fetches : List FetchRun) :
    (SampleDetailPage.after fetches).auditLogs = [] ∧
    SampleDetailPage.auditTrail (SampleDetailPage.after fetches) = .noAccessLogs ∧
    (∀ rows : List AuditEntry, rows ≠ [] → AuditLog (some rows) false = .table rows) := by
  have hfold : ∀ (fs : List FetchRun) (st : SampleDetailState), st.auditLogs = [] →
      (fs.foldl
        (fun st f => (SampleDetailPage.fetchResults f.server f.session f.sampleId st).2.1)
        st).auditLogs = [] := by
    intro fs
    induction fs with
    | nil => intro st h; exact h
    | cons f rest ih =>
      intro st h
      exact ih _ (by rw [fetchResults_auditLogs]; exact h)
  have hlogs : (SampleDetailPage.after fetches).auditLogs = [] :=
    hfold fetches SampleDetailPage.initial rfl
  refine ⟨hlogs, ?_, ?_⟩
  · simp [SampleDetailPage.auditTrail, AuditLog, hlogs]
  · intro rows hrows
    simp [AuditLog, hrows]

/-! ## Stored token and in-memory token -/

theorem step_stored_token (s : Session) (e : Event)
    (h : getItem s.localStorage "access_token" = s.token) :
    getItem (step s e).localStorage "access_token" = (step s e).token ∧
    (step s e).api = axiosCreate (step s e).token := by
  have hne : ("refresh_token" : String) ≠ "access_token" := by decide
  cases e with
  | login backend email password mfa_code =>
    cases hout : backend s.api "/auth/login"
        { email := email, password := password, mfa_code := mfa_code } with
    | ok data =>
      simp [step, render, login, hout, getItem, setItem, Dict.get_set_same,
        Dict.get_set_other _ _ _ _ hne]
    | error err =>
      simpa [step, render, login, hout] using h
  | logout =>
    simp [step, render, logout, getItem, removeItem, Dict.get_remove_same,
      Dict.get_remove_other _ _ _ hne]

theorem run_stored_token (s : Session) (es : List Event)
    (h : getItem s.localStorage "access_token" = s.token) (hapi : s.api = axiosCreate s.token) :
    getItem (run s es).localStorage "access_token" = (run s es).token ∧
    (run s es).api = axiosCreate (run s es).token := by
  induction es generalizing s with
  | nil => exact ⟨h, hapi⟩
  | cons e rest ih =>
    exact ih (step s e) (step_stored_token s e h).1 (step_stored_token s e h).2

/-! ## The guard does not read the profile -/

theorem ProtectedRoute_content (s : Session) (sidebarOpen : Bool) (outlet : Element) :
    (ProtectedRoute s sidebarOpen outlet).content
      = if isAuthenticated s then outlet.content else [] := by
  cases h : isAuthenticated s <;> simp [ProtectedRoute, h, ProtectedLayout, Element.content]

theorem ProtectedRoute_redirect (s : Session) (sidebarOpen : Bool) (outlet : Element) :
    (ProtectedRoute s sidebarOpen outlet).redirect
      = if isAuthenticated s then outlet.redirect else some "/lab/login" := by
  cases h : isAuthenticated s <;> simp [ProtectedRoute, h, ProtectedLayout, Element.redirect]

/-- C24: for two sessions with the same `isAuthenticated`, whatever their users and
whatever the state of the side bar, every location shows the same pages and holds the
same redirect; in particular an authenticated session reaches the page of `/lab/audit`
whatever its user is. -/
theorem guard_ignores_user (s1 s2 : Session) (open1 open2 : Bool) (path : List String)
    (hauth : isAuthenticated s1 = isAuthenticated s2) :
    (App s1 open1 path).content = (App s2 open2 path).content ∧
    (App s1 open1 path).redirect = (App s2 open2 path).redirect ∧
    (isAuthenticated s1 = true →
      (App s1 open1 ["lab", "audit"]).content = [.PlaceholderPage "Audit Logs"] ∧
      (App s2 open2 ["lab", "audit"]).content = [.PlaceholderPage "Audit Logs"]) := by
  refine ⟨?_, ?_, ?_⟩
  · simp only [App]
    cases matchRoutes routes path with
    | none => rfl
    | some found =>
      obtain ⟨r, params⟩ := found
      cases hp : r.parent <;>
        simp [hp, PublicLayout, Element.content, ProtectedRoute_content, hauth]
  · simp only [App]
    cases matchRoutes routes path with
    | none => rfl
    | some found =>
      obtain ⟨r, params⟩ := found
      cases hp : r.parent <;>
        simp [hp, PublicLayout, Element.redirect, ProtectedRoute_redirect, hauth]
  · intro h1
    have h2 : isAuthenticated s2 = true := by rw [← hauth]; exact h1
    have happ : ∀ (s : Session) (b : Bool), App s b ["lab", "audit"]
        = ProtectedRoute s b (.page (.PlaceholderPage "Audit Logs")) := fun _ _ => rfl
    simp [happ, ProtectedRoute_content, h1, h2, Element.content]

/-- C24, an instance: the restored session without profile and the same session with the
profile of a lab administrator, on the audit route. -/
theorem guard_ignores_user_witness :
    restored.user ≠ restoredAdmin.user ∧
    (App restored true ["lab", "audit"]).content
      = (App restoredAdmin false ["lab", "audit"]).content ∧
    (App restored true ["lab", "audit"]).redirect
      = (App restoredAdmin false ["lab", "audit"]).redirect :=
  ⟨by decide,
    (guard_ignores_user restored restoredAdmin true false ["lab", "audit"] (by decide)).1,
    (guard_ignores_user restored restoredAdmin true false ["lab", "audit"] (by decide)).2.1⟩

/-! ## No redirect loop -/

theorem matchRoutes_mem (table : List RouteObject) (path : List String) (r : RouteObject)
    (params : Dict) (h : matchRoutes table path = some (r, params)) :
    r ∈ table ∧ matchPath r.path path = some params := by
  induction table with
  | nil => simp [matchRoutes] at h
  | cons r0 rest ih =>
    simp only [matchRoutes] at h
    cases hm : matchPath r0.path path with
    | none =>
      rw [hm] at h
      exact ⟨List.mem_cons_of_mem _ (ih h).1, (ih h).2⟩
    | some ps =>
      rw [hm] at h
      simp only [Option.some.injEq, Prod.mk.injEq] at h
      obtain ⟨hr, hps⟩ := h
      subst hr
      subst hps
      exact ⟨List.mem_cons_self _ _, hm⟩

theorem matchRoutes_of_splat (table : List RouteObject) (path : List String)
    (h : ∃ r ∈ table, r.path = Pattern.splat) : matchRoutes table path ≠ none := by
  induction table with
  | nil => simp at h
  | cons r0 rest ih =>
    simp only [matchRoutes]
    cases hm : matchPath r0.path path with
    | some ps => simp
    | none =>
      obtain ⟨r, hmem, hsplat⟩ := h
      rcases List.mem_cons.mp hmem with hr | hr
      · subst hr
        rw [hsplat] at hm
        simp [matchPath] at hm
      · exact ih ⟨r, hr, hsplat⟩

/-- Every location renders a page on its own, a page in the public layout, a page
behind `ProtectedRoute`, or the redirect to `/`. -/
theorem App_cases (s : Session) (sidebarOpen : Bool) (path : List String) :
    (∃ p, App s sidebarOpen path = .page p) ∨
    (∃ p, App s sidebarOpen path = PublicLayout (.page p)) ∨
    (∃ p, App s sidebarOpen path = ProtectedRoute s sidebarOpen (.page p)) ∨
    App s sidebarOpen path = .navigate "/" := by
  have hsome : matchRoutes routes path ≠ none :=
    matchRoutes_of_splat routes path ⟨⟨.splat, .root, fun _ => .navigate "/"⟩, by simp [routes], rfl⟩
  cases hm : matchRoutes routes path with
  | none => exact absurd hm hsome
  | some found =>
    obtain ⟨r, params⟩ := found
    have hmem := (matchRoutes_mem routes path r params hm).1
    simp only [routes, List.mem_cons, List.mem_singleton, List.not_mem_nil, or_false] at hmem
    simp only [App, hm]
    rcases hmem with h | h | h | h | h | h | h | h | h | h | h | h | h | h <;> subst h <;>
      first
        | exact Or.inr (Or.inr (Or.inl ⟨_, rfl⟩))
        | simp [PublicLayout]

/-- C25: for every location and every session state, a redirect that the rendered tree
holds goes to `/lab/login` or to `/`, both declared routes whose tree holds no redirect
and shows a page; so navigation, given at least two renders, ends after at most one
redirect on a tree that shows a page. -/
theorem navigation_no_loop (s : Session) (sidebarOpen : Bool) (path : List String)
    (fuel : Nat) :
    (∀ target, (App s sidebarOpen path).redirect = some target →
      (target = "/lab/login" ∨ target = "/") ∧
      matchesDeclared (segmentsOf target) = true ∧
      (App s sidebarOpen (segmentsOf target)).redirect = none ∧
      (App s sidebarOpen (segmentsOf target)).content ≠ []) ∧
    (∃ e n, resolveLocation (fuel + 2) s sidebarOpen path = some (e, n) ∧ n ≤ 1 ∧
      e.redirect = none ∧ e.content ≠ []) := by
  have hlogin : segmentsOf "/lab/login" = ["lab", "login"] := by decide
  have hroot : segmentsOf "/" = [] := by decide
  have happLogin : App s sidebarOpen ["lab", "login"] = .page .LoginPage := rfl
  have happRoot : App s sidebarOpen [] = .publicLayout (.page .HomePage) := rfl
  have hdeclLogin : matchesDeclared ["lab", "login"] = true := by decide
  have hdeclRoot : matchesDeclared [] = true := by decide
  -- a tree without redirect ends navigation at once
  have hstay : ∀ e, App s sidebarOpen path = e → e.redirect = none → e.content ≠ [] →
      ∃ e n, resolveLocation (fuel + 2) s sidebarOpen path = some (e, n) ∧ n ≤ 1 ∧
        e.redirect = none ∧ e.content ≠ [] := by
    intro e he hr hc
    refine ⟨e, 0, ?_, Nat.zero_le _, hr, hc⟩
    simp [resolveLocation, he, hr]
  rcases App_cases s sidebarOpen path with ⟨p, h⟩ | ⟨p, h⟩ | ⟨p, h⟩ | h
  · refine ⟨?_, hstay _ h rfl (by simp [Element.content])⟩
    intro target ht
    simp [h, Element.redirect] at ht
  · refine ⟨?_, hstay _ h rfl (by simp [PublicLayout, Element.content])⟩
    intro target ht
    simp [h, PublicLayout, Element.redirect] at ht
  · cases hauth : isAuthenticated s with
    | true =>
      have hr : (App s sidebarOpen path).redirect = none := by
        simp [h, ProtectedRoute_redirect, hauth, Element.redirect]
      have hc : (App s sidebarOpen path).content ≠ [] := by
        simp [h, ProtectedRoute_content, hauth, Element.content]
      refine ⟨?_, hstay _ rfl hr hc⟩
      intro target ht
      rw [hr] at ht
      cases ht
    | false =>
      have hr : (App s sidebarOpen path).redirect = some "/lab/login" := by
        simp [h, ProtectedRoute_redirect, hauth]
      constructor
      · intro target ht
        rw [hr] at ht
        cases ht
        rw [hlogin, happLogin]
        exact ⟨Or.inl rfl, hdeclLogin, rfl, by simp [Element.content]⟩
      · refine ⟨.page .LoginPage, 1, ?_, Nat.le_refl _, rfl, by simp [Element.content]⟩
        simp [resolveLocation, hr, hlogin, happLogin, Element.redirect]
  · have hr : (App s sidebarOpen path).redirect = some "/" := by
      simp [h, Element.redirect]
    constructor
    · intro target ht
      rw [hr] at ht
      cases ht
      rw [hroot, happRoot]
      exact ⟨Or.inr rfl, hdeclRoot, rfl, by simp [Element.content]⟩
    · refine ⟨.publicLayout (.page .HomePage), 1, ?_, Nat.le_refl _, rfl,
        by simp [Element.content]⟩
      simp [resolveLocation, hr, hroot, happRoot, Element.redirect]

/-! ## The header of the sample fetch -/

/-- The sample page is on screen only in an authenticated session. -/
theorem sample_page_requires_auth (s : Session) (sidebarOpen : Bool) (path : List String)
    (sampleId : String)
    (hshown : Page.SampleDetailPage sampleId ∈ (App s sidebarOpen path).content) :
    isAuthenticated s = true := by
  have hsome : matchRoutes routes path ≠ none :=
    matchRoutes_of_splat routes path ⟨⟨.splat, .root, fun _ => .navigate "/"⟩, by simp [routes], rfl⟩
  cases hm : matchRoutes routes path with
  | none => exact absurd hm hsome
  | some found =>
    obtain ⟨r, params⟩ := found
    have hmem := (matchRoutes_mem routes path r params hm).1
    simp only [routes, List.mem_cons, List.mem_singleton, List.not_mem_nil, or_false] at hmem
    simp only [App, hm] at hshown
    cases hauth : isAuthenticated s with
    | true => rfl
    | false =>
      rcases hmem with h | h | h | h | h | h | h | h | h | h | h | h | h | h <;> subst h <;>
        simp [PublicLayout, Element.content, ProtectedRoute_content, hauth] at hshown

/-- C23: in every state reached from initialisation by logins and logouts, the access
token in storage equals the in-memory token, both absent or both the same string; so
wherever the sample page is on screen, and whenever the session is authenticated, the
`Authorization` header its fetch builds from storage equals the default header of the
client. For the restored session with token `T0`, on `/lab/samples/S-1`, both are
`Bearer T0`. -/
theorem stored_token_matches (storage : Storage) (es : List Event) :
    getItem (run (init storage) es).localStorage "access_token"
      = (run (init storage) es).token ∧
    (∀ sampleId, isAuthenticated (run (init storage) es) = true →
      (SampleDetailPage.request (run (init storage) es) sampleId).authorization
        = requestHeader (run (init storage) es).api [] "Authorization" ∧
      (SampleDetailPage.request (run (init storage) es) sampleId).authorization
        = some ("Bearer " ++ toStr (run (init storage) es).token)) ∧
    (∀ (sidebarOpen : Bool) (path : List String) (sampleId : String),
      Page.SampleDetailPage sampleId ∈ (App (run (init storage) es) sidebarOpen path).content →
      (SampleDetailPage.request (run (init storage) es) sampleId).authorization
        = requestHeader (run (init storage) es).api [] "Authorization") ∧
    (Page.SampleDetailPage "S-1"
        ∈ (App (run (init [("access_token", "T0"), ("refresh_token", "R0")]) []) true
            ["lab", "samples", "S-1"]).content ∧
      (SampleDetailPage.request (run (init [("access_token", "T0"), ("refresh_token", "R0")]) [])
        "S-1").authorization = some "Bearer T0" ∧
      requestHeader (run (init [("access_token", "T0"), ("refresh_token", "R0")]) []).api []
        "Authorization" = some "Bearer T0") := by
  obtain ⟨htok, hapi⟩ := run_stored_token (init storage) es rfl rfl
  have hagree : ∀ sampleId, isAuthenticated (run (init storage) es) = true →
      (SampleDetailPage.request (run (init storage) es) sampleId).authorization
        = requestHeader (run (init storage) es).api [] "Authorization" ∧
      (SampleDetailPage.request (run (init storage) es) sampleId).authorization
        = some ("Bearer " ++ toStr (run (init storage) es).token) := by
    intro sampleId hauth
    have hreq : (SampleDetailPage.request (run (init storage) es) sampleId).authorization
        = some ("Bearer " ++ toStr (run (init storage) es).token) := by
      simp [SampleDetailPage.request, AxiosInstance.get, requestHeader, Dict.get, htok]
    refine ⟨?_, hreq⟩
    rw [hreq, hapi]
    simp only [isAuthenticated] at hauth
    simp [requestHeader, axiosCreate, Dict.get, hauth]
  refine ⟨htok, hagree, ?_, by decide⟩
  intro sidebarOpen path sampleId hshown
  exact (hagree sampleId (sample_page_requires_auth _ sidebarOpen path sampleId hshown)).1

/-! ## Severity colour -/

theorem startsWith_iff (l n : List Char) : startsWith l n = true ↔ ∃ v, l = n ++ v := by
  induction l generalizing n with
  | nil =>
    cases n with
    | nil => simp [startsWith]
    | cons d ds => simp [startsWith]
  | cons c cs ih =>
    cases n with
    | nil => simp [startsWith]
    | cons d ds =>
      simp only [startsWith, Bool.and_eq_true, decide_eq_true_eq, ih, List.cons_append,
        List.cons.injEq]
      constructor
      · rintro ⟨hcd, v, hv⟩
        exact ⟨v, hcd, hv⟩
      · rintro ⟨v, hcd, hv⟩
        exact ⟨hcd, v, hv⟩

theorem hasInfix_iff (l n : List Char) :
    hasInfix l n = true ↔ ∃ u v, l = u ++ n ++ v := by
  induction l with
  | nil =>
    simp only [hasInfix, startsWith_iff]
    constructor
    · rintro ⟨v, hv⟩
      exact ⟨[], v, by simpa using hv⟩
    · rintro ⟨u, v, huv⟩
      have hu : u = [] := by
        cases u with
        | nil => rfl
        | cons a as => simp at huv
      subst hu
      exact ⟨v, by simpa using huv⟩
  | cons c cs ih =>
    simp only [hasInfix, Bool.or_eq_true, startsWith_iff, ih]
    constructor
    · rintro (⟨v, hv⟩ | ⟨u, v, huv⟩)
      · exact ⟨[], v, by simpa using hv⟩
      · exact ⟨c :: u, v, by simp [huv]⟩
    · rintro ⟨u, v, huv⟩
      cases u with
      | nil => exact Or.inl ⟨v, by simpa using huv⟩
      | cons a as =>
        simp only [List.cons_append, List.cons.injEq] at huv
        exact Or.inr ⟨as, v, by simpa using huv.2⟩

theorem includes_iff (text needle : String) :
    includes text needle = true ↔ occursIn needle text := by
  simp [includes, occursIn, hasInfix_iff]

theorem lower_eq_empty (t : String) : lower t = "" ↔ t = "" := by
  cases t with
  | mk data =>
    cases data with
    | nil => simp [lower]
    | cons c cs =>
      constructor
      · intro h
        have := congrArg String.data h
        simp [lower] at this
      · intro h
        have := congrArg String.data h
        simp at this

theorem occursIn_lower_iff (needle text : String) :
    occursIn needle (lower text) ↔ occursIgnoringCase needle text := by
  simp only [occursIn, occursIgnoringCase, lower]
  constructor
  · rintro ⟨before, after, h⟩
    obtain ⟨l1, l2, hl, h1, h2⟩ := List.map_eq_append_iff.mp h
    obtain ⟨l11, l12, hl1, h11, h12⟩ := List.map_eq_append_iff.mp h1
    exact ⟨l11, l12, l2, by rw [hl, hl1], h12⟩
  · rintro ⟨before, block, after, htext, hblock⟩
    exact ⟨before.map Char.toLower, after.map Char.toLower, by simp [htext, hblock]⟩

/-- C26: `getSeverityColor` gives the gray style for an absent or empty text; for any
other text it ignores the case of letters, and gives the red style when `disease` occurs
in it, whether or not `carrier` or `trait` occur too; otherwise the amber style when
`carrier` or `trait` occurs; otherwise the blue style. Two texts that differ only in the
case of their letters get the same style; `Sickle cell DISEASE, CARRIER` is red,
`Carrier of HbS` and `Sickle cell TRAIT` are amber, `Benign` is blue. -/
theorem severity_colour (significance : Option String) :
    (significance = none ∨ significance = some "" →
      getSeverityColor significance = "bg-gray-50") ∧
    (∀ t, significance = some t → t ≠ "" →
      (occursIn "disease" (lower t) →
        getSeverityColor significance = "bg-red-50 border-red-200") ∧
      (¬ occursIn "disease" (lower t) →
        occursIn "carrier" (lower t) ∨ occursIn "trait" (lower t) →
        getSeverityColor significance = "bg-amber-50 border-amber-200") ∧
      (¬ occursIn "disease" (lower t) → ¬ occursIn "carrier" (lower t) →
        ¬ occursIn "trait" (lower t) →
        getSeverityColor significance = "bg-blue-50 border-blue-200")) ∧
    (∀ t other, significance = some t → lower other = lower t →
      getSeverityColor (some other) = getSeverityColor significance) ∧
    (∀ t, significance = some t → t ≠ "" →
      (occursIgnoringCase "disease" t →
        getSeverityColor significance = "bg-red-50 border-red-200") ∧
      (¬ occursIgnoringCase "disease" t →
        occursIgnoringCase "carrier" t ∨ occursIgnoringCase "trait" t →
        getSeverityColor significance = "bg-amber-50 border-amber-200") ∧
      (¬ occursIgnoringCase "disease" t → ¬ occursIgnoringCase "carrier" t →
        ¬ occursIgnoringCase "trait" t →
        getSeverityColor significance = "bg-blue-50 border-blue-200")) ∧
    (∀ t other, significance = some t →
      other.data.map Char.toLower = t.data.map Char.toLower →
      getSeverityColor (some other) = getSeverityColor significance) ∧
    (getSeverityColor (some "Sickle cell DISEASE, CARRIER") = "bg-red-50 border-red-200" ∧
      getSeverityColor (some "DiSeAsE") = "bg-red-50 border-red-200" ∧
      getSeverityColor (some "Carrier of HbS") = "bg-amber-50 border-amber-200" ∧
      getSeverityColor (some "Sickle cell TRAIT") = "bg-amber-50 border-amber-200" ∧
      getSeverityColor (some "Benign") = "bg-blue-50 border-blue-200" ∧
      getSeverityColor (some "") = "bg-gray-50" ∧
      getSeverityColor none = "bg-gray-50") := by
  have hclass : ∀ t, significance = some t → t ≠ "" →
      (occursIn "disease" (lower t) →
        getSeverityColor significance = "bg-red-50 border-red-200") ∧
      (¬ occursIn "disease" (lower t) →
        occursIn "carrier" (lower t) ∨ occursIn "trait" (lower t) →
        getSeverityColor significance = "bg-amber-50 border-amber-200") ∧
      (¬ occursIn "disease" (lower t) → ¬ occursIn "carrier" (lower t) →
        ¬ occursIn "trait" (lower t) →
        getSeverityColor significance = "bg-blue-50 border-blue-200") := by
    intro t ht hne
    subst ht
    refine ⟨?_, ?_, ?_⟩
    · intro hd
      have := (includes_iff (lower t) "disease").mpr hd
      simp [getSeverityColor, truthy, hne, toStr, this]
    · intro hd hct
      have hd1 : includes (lower t) "disease" = false := by
        rw [Bool.eq_false_iff]
        exact fun h => hd ((includes_iff _ _).mp h)
      have hct1 : (includes (lower t) "carrier" || includes (lower t) "trait") = true := by
        rcases hct with h | h
        · simp [(includes_iff _ _).mpr h]
        · simp [(includes_iff _ _).mpr h]
      simp [getSeverityColor, truthy, hne, toStr, hd1, hct1]
    · intro hd hc ht
      have hd1 : includes (lower t) "disease" = false := by
        rw [Bool.eq_false_iff]
        exact fun h => hd ((includes_iff _ _).mp h)
      have hc1 : includes (lower t) "carrier" = false := by
        rw [Bool.eq_false_iff]
        exact fun h => hc ((includes_iff _ _).mp h)
      have ht1 : includes (lower t) "trait" = false := by
        rw [Bool.eq_false_iff]
        exact fun h => ht ((includes_iff _ _).mp h)
      simp [getSeverityColor, truthy, hne, toStr, hd1, hc1, ht1]
  have hsame : ∀ t other, significance = some t → lower other = lower t →
      getSeverityColor (some other) = getSeverityColor significance := by
    intro t other ht hlow
    subst ht
    have hempty : other = "" ↔ t = "" := by
      rw [← lower_eq_empty other, ← lower_eq_empty t, hlow]
    by_cases h : t = ""
    · have ho := hempty.mpr h
      subst h
      subst ho
      rfl
    · have ho : other ≠ "" := fun hh => h (hempty.mp hh)
      simp [getSeverityColor, truthy, h, ho, toStr, hlow]
  refine ⟨?_, hclass, hsame, ?_, ?_, by decide⟩
  · rintro (h | h) <;> simp [getSeverityColor, h, truthy]
  · intro t ht hne
    obtain ⟨hred, hamber, hblue⟩ := hclass t ht hne
    simp only [occursIn_lower_iff] at hred hamber hblue
    exact ⟨hred, hamber, hblue⟩
  · intro t other ht hmap
    exact hsame t other ht (by simp [lower, hmap])

/-! ## Status counts -/

/-- C27: for every list of samples, each status count is the number of samples whose
status is that label; the three counts add up to at most the total `samples.length`, and
to exactly the total when and only when every sample has one of the three labels. -/
theorem status_counts (samples : List Sample) :
    (DashboardPage.statusCounts samples).received
      = (samples.map (fun x => x.status)).count "Received" ∧
    (DashboardPage.statusCounts samples).processing
      = (samples.map (fun x => x.status)).count "Processing" ∧
    (DashboardPage.statusCounts samples).resultsAvailable
      = (samples.map (fun x => x.status)).count "Results Available" ∧
    (DashboardPage.statusCounts samples).received
        + (DashboardPage.statusCounts samples).processing
        + (DashboardPage.statusCounts samples).resultsAvailable
      ≤ DashboardPage.totalSamples samples ∧
    ((DashboardPage.statusCounts samples).received
        + (DashboardPage.statusCounts samples).processing
        + (DashboardPage.statusCounts samples).resultsAvailable
      = DashboardPage.totalSamples samples ↔
      ∀ x ∈ samples, x.status = "Received" ∨ x.status = "Processing"
        ∨ x.status = "Results Available") := by
  have hcount : ∀ (label : String) (l : List Sample),
      (l.filter (fun s => s.status == label)).length
        = (l.map (fun x => x.status)).count label := by
    intro label l
    induction l with
    | nil => rfl
    | cons x xs ih =>
      by_cases h : x.status = label
      · simp [List.filter_cons, h, ih]
      · simp [List.filter_cons, h, ih, List.count_cons]
  have hrp : ("Received" : String) ≠ "Processing" := by decide
  have hra : ("Received" : String) ≠ "Results Available" := by decide
  have hpa : ("Processing" : String) ≠ "Results Available" := by decide
  refine ⟨hcount _ _, hcount _ _, hcount _ _, ?_⟩
  simp only [DashboardPage.statusCounts, DashboardPage.totalSamples]
  induction samples with
  | nil => simp
  | cons x xs ih =>
    obtain ⟨hle, hiff⟩ := ih
    have hcons : ∀ label : String,
        ((x :: xs).filter (fun s => s.status == label)).length
          = (xs.filter (fun s => s.status == label)).length
            + (if x.status = label then 1 else 0) := by
      intro label
      by_cases h : x.status = label <;> simp [List.filter_cons, h]
    rw [hcons, hcons, hcons]
    simp only [List.length_cons, List.mem_cons, forall_eq_or_imp]
    rw [← hiff]
    by_cases h1 : x.status = "Received"
    · simp only [h1, hrp, hra, if_true, if_false, true_or, true_and]
      constructor
      · omega
      · constructor <;> intro h <;> omega
    · by_cases h2 : x.status = "Processing"
      · simp only [h2, hrp.symm, hpa, if_true, if_false, true_or, or_true, true_and]
        constructor
        · omega
        · constructor <;> intro h <;> omega
      · by_cases h3 : x.status = "Results Available"
        · simp only [h3, hra.symm, hpa.symm, if_true, if_false, or_true, true_and]
          constructor
          · omega
          · constructor <;> intro h <;> omega
        · simp only [h1, h2, h3, if_false, or_self, false_and, iff_false]
          constructor
          · omega
          · omega

end Afrigene
